import Mathlib

/-!
# Prysm CL client launcher and CL genesis data generator

A shallow embedding of

* `kurtosis-module/impl/participant_network/cl/prysm/prysm_launcher.go`
* `kurtosis-module/impl/prelaunch_data_generator/cl_genesis/cl_genesis_data_generator.go`

Go strings are embedded as Lean `String`s (sequences of Unicode scalar values), slices as
`List`s, `(T, error)` results as `Except StackErr T` and a lone `error` result as
`Option StackErr` (`none` is Go's `nil`).  Everything the two files reach through an imported
package (the enclave runtime, the REST client, the file system, the clock) is a field of the
record `Collaborators σ`, where `σ` is the state of the outside world: every such call takes the
world and returns the new one next to its answer.  The calls a run makes are recorded, with the
answers they got, in a trace.
-/

namespace Prysm

/-! ## Errors (`github.com/kurtosis-tech/stacktrace`) -/

/-- An error value: one handed back by a collaborator, one made by `stacktrace.NewError` with
its formatted message, or one made by `stacktrace.Propagate` around a cause. -/
inductive StackErr where
  | external (description : String)
  | newError (message : String)
  | propagate (cause : StackErr) (message : String)
deriving DecidableEq, Repr

instance {ε α : Type} [DecidableEq ε] [DecidableEq α] : DecidableEq (Except ε α)
  | .ok a, .ok b => if h : a = b then isTrue (by rw [h]) else isFalse (by intro e; cases e; exact h rfl)
  | .error a, .error b =>
    if h : a = b then isTrue (by rw [h]) else isFalse (by intro e; cases e; exact h rfl)
  | .ok _, .error _ => isFalse (by intro e; cases e)
  | .error _, .ok _ => isFalse (by intro e; cases e)

/-- The message of the innermost error of a chain of `Propagate` wrappers. -/
def StackErr.rootMessage : StackErr → String
  | .external d => d
  | .newError m => m
  | .propagate c _ => c.rootMessage

/-! ## Strings (`strings`, `fmt`) -/

/-- Segments of a character list between the occurrences of `sep`. -/
def splitChars (sep : Char) : List Char → List (List Char)
  | [] => [[]]
  | c :: cs =>
    if c = sep then [] :: splitChars sep cs
    else
      match splitChars sep cs with
      | [] => [[c]]
      | seg :: segs => (c :: seg) :: segs

/-- Go `strings.Split(s, sep)` for a separator of one character. -/
def Split (s : String) (sep : Char) : List String :=
  (splitChars sep s.data).map String.mk

/-- Go `unicode.IsSpace`: the code points with the Unicode White_Space property. -/
def unicodeIsSpace (c : Char) : Bool :=
  let n := c.toNat
  (0x09 ≤ n && n ≤ 0x0D) || n == 0x20 || n == 0x85 || n == 0xA0 || n == 0x1680 ||
  (0x2000 ≤ n && n ≤ 0x200A) || n == 0x2028 || n == 0x2029 || n == 0x202F ||
  n == 0x205F || n == 0x3000

/-- Go `strings.TrimSpace`: the string without its leading and trailing white space. -/
def TrimSpace (s : String) : String :=
  String.mk ((s.data.dropWhile unicodeIsSpace).reverse.dropWhile unicodeIsSpace).reverse

/-- Go `strings.Join(elems, sep)`. -/
def Join (elems : List String) (sep : String) : String :=
  sep.intercalate elems

/-- The `%v` rendering of an unsigned integer: its decimal digits. -/
def fmtNat (n : Nat) : String := toString n

/-- The `%v` rendering of a signed integer. -/
def fmtInt (i : Int) : String := toString i

/-- Whether the argument `a` begins with the text `p`. -/
def beginsWith (a p : String) : Prop := p.data <+: a.data

instance (a p : String) : Decidable (beginsWith a p) := by
  unfold beginsWith; infer_instance

/-! ## Types of the packages the launcher imports -/

/-- Path descriptor of `services.SharedPath`: one place of the shared storage, seen from the
module container and from the service container. -/
structure SharedPath where
  absPathOnThisContainer : String
  absPathOnServiceContainer : String
deriving DecidableEq, Repr

/-- The method `GetAbsPathOnThisContainer`. -/
def SharedPath.GetAbsPathOnThisContainer (p : SharedPath) : String := p.absPathOnThisContainer

/-- The method `GetAbsPathOnServiceContainer`. -/
def SharedPath.GetAbsPathOnServiceContainer (p : SharedPath) : String :=
  p.absPathOnServiceContainer

/-- The port protocols of `services.PortProtocol`. -/
inductive PortProtocol where
  | TCP
  | UDP
deriving DecidableEq, Repr

/-- A port specification `services.PortSpec`, made by `services.NewPortSpec`. -/
structure PortSpec where
  number : Nat
  protocol : PortProtocol
deriving DecidableEq, Repr

/-- The method `GetNumber`. -/
def PortSpec.GetNumber (p : PortSpec) : Nat := p.number

/-- A Go `map[string]*services.PortSpec`, as an association list. -/
abbrev PortMap := List (String × PortSpec)

/-- The launch specification `services.ContainerConfig`, as built by
`NewContainerConfigBuilder(image).WithUsedPorts(ports).WithCmdOverride(cmdArgs).Build()`. -/
structure ContainerConfig where
  image : String
  usedPorts : PortMap
  cmdOverride : List String
deriving DecidableEq, Repr

/-- The handle `services.ServiceContext` of a started service. -/
structure ServiceContext where
  serviceId : String
  sharedDirectory : SharedPath
  privateIPAddress : String
  privatePorts : PortMap
deriving DecidableEq, Repr

/-- The method `GetPrivateIPAddress`. -/
def ServiceContext.GetPrivateIPAddress (c : ServiceContext) : String := c.privateIPAddress

/-- The method `GetPrivatePorts`. -/
def ServiceContext.GetPrivatePorts (c : ServiceContext) : PortMap := c.privatePorts

/-- The method `GetSharedDirectory`. -/
def ServiceContext.GetSharedDirectory (c : ServiceContext) : SharedPath := c.sharedDirectory

/-- Modelled from the spec: the five-level log-level enum {error, warn, info, debug, trace} of
`module_io.GlobalClientLogLevel`, whose declaration is not among the two source files. -/
inductive GlobalClientLogLevel where
  | Error
  | Warn
  | Info
  | Debug
  | Trace
deriving DecidableEq, Repr

/-- Modelled from the spec: the REST client of `cl_client_rest_client`, made by
`NewCLClientRESTClient(ipAddr, portNum)`; its declaration is not among the two source files. -/
structure CLClientRESTClient where
  ipAddr : String
  portNum : Nat
deriving DecidableEq, Repr

/-- Modelled from the spec: the NodeIdentity answered by `GetNodeIdentity`, of which the launcher
reads the address record `ENR`; its declaration is not among the two source files. -/
structure NodeIdentity where
  ENR : String
deriving DecidableEq, Repr

/-- Modelled from the spec: a metrics descriptor `cl.CLNodeMetricsInfo` (a logical service name,
a metrics path and a scrape URL), made by `cl.NewCLNodeMetricsInfo(name, path, url)`; its
declaration is not among the two source files. -/
structure CLNodeMetricsInfo where
  name : String
  path : String
  url : String
deriving DecidableEq, Repr

/-- Modelled from the spec: the ClientNetworkContext `cl.CLClientContext`, made by
`cl.NewCLClientContext(enr, ipAddr, httpPortNum, nodesMetricsInfo, restClient)`; its declaration
is not among the two source files. -/
structure CLClientContext where
  enr : String
  ipAddr : String
  httpPortNum : Nat
  nodesMetricsInfo : List CLNodeMetricsInfo
  restClient : CLClientRESTClient
deriving DecidableEq, Repr

/-- The method `GetENR`. -/
def CLClientContext.GetENR (c : CLClientContext) : String := c.enr

/-- Modelled from the spec: the execution-layer context `el.ELClientContext`, of which the
launcher reads the address and the RPC port; its declaration is not among the two source
files. -/
structure ELClientContext where
  ipAddr : String
  rpcPortNum : Nat
deriving DecidableEq, Repr

/-- The method `GetIPAddress`. -/
def ELClientContext.GetIPAddress (c : ELClientContext) : String := c.ipAddr

/-- The method `GetRPCPortNum`. -/
def ELClientContext.GetRPCPortNum (c : ELClientContext) : Nat := c.rpcPortNum

/-- Modelled from the spec: the keystore directories `NodeTypeKeystoreDirpaths` of one node, of
which the launcher reads `RawKeysDirpath` and `PrysmDirpath`; its declaration is not among the
two source files. -/
structure NodeTypeKeystoreDirpaths where
  RawKeysDirpath : String
  PrysmDirpath : String
deriving DecidableEq, Repr

/-- A container-config supplier `func(string, *services.SharedPath) (*ContainerConfig, error)`:
it stages files, so it reads and changes the world. -/
abbrev Supplier (σ : Type) := String → SharedPath → σ → Except StackErr ContainerConfig × σ

/-- A Go text template `*template.Template`. -/
abbrev Template := String

/-- An open file `*os.File`. -/
structure File where
  fd : Nat
  name : String
deriving DecidableEq, Repr

/-- The template data `clGenesisConfigTemplateData` of the genesis generator. -/
structure clGenesisConfigTemplateData where
  NetworkId : String
  SecondsPerSlot : Nat
  UnixTimestamp : Nat
  TotalTerminalDifficulty : Nat
  AltairForkEpoch : Nat
  MergeForkEpoch : Nat
  NumValidatorKeysToPreregister : Nat
  PreregisteredValidatorKeysMnemonic : String
  DepositContractAddress : String
deriving DecidableEq, Repr

/-- Modelled from the spec: the GenesisArtifactBundle `CLGenesisData`, made by
`newCLGenesisData(parentDirpath, jwtSecretFilepath, configYmlFilepath, genesisSszFilepath)`; its
declaration is not among the two source files. -/
structure CLGenesisData where
  parentDirpath : String
  jwtSecretFilepath : String
  configYmlFilepath : String
  genesisSszFilepath : String
deriving DecidableEq, Repr

/-! ## The collaborators -/

/-- What the two files call in other packages, over a world of type `σ`. -/
structure Collaborators (σ : Type) where
  /-- The method `SharedPath.GetChildPath(pathElement)`. -/
  getChildPath : SharedPath → String → SharedPath
  /-- Go `path.Join(a, b)`. -/
  pathJoin : String → String → String
  /-- The `%v` rendering of a global log level. -/
  fmtLogLevel : GlobalClientLogLevel → String
  /-- The function `module_io.GetClientLogLevelStrOrDefault`. -/
  getClientLogLevelStrOrDefault :
    String → GlobalClientLogLevel → List (GlobalClientLogLevel × String) → Except StackErr String
  /-- The function `service_launch_utils.CopyFileToSharedPath(srcFilepath, destSharedPath)`. -/
  copyFileToSharedPath : String → SharedPath → σ → Option StackErr × σ
  /-- The function `service_launch_utils.FillTemplateToSharedPath(tmpl, data, destination)`. -/
  fillTemplateToSharedPath :
    Template → clGenesisConfigTemplateData → SharedPath → σ → Option StackErr × σ
  /-- The function `recursive_copy.Copy(src, dest)`. -/
  recursiveCopy : String → String → σ → Option StackErr × σ
  /-- Go `ioutil.WriteFile(filename, data, perm)`. -/
  writeFile : String → String → Nat → σ → Option StackErr × σ
  /-- Go `os.Mkdir(name, perm)`. -/
  mkdir : String → Nat → σ → Option StackErr × σ
  /-- Go `os.Open(name)`. -/
  osOpen : String → σ → Except StackErr File × σ
  /-- Go `os.Create(name)`. -/
  osCreate : String → σ → Except StackErr File × σ
  /-- Go `io.Copy(dst, src)`, the number of bytes copied or an error. -/
  ioCopy : File → File → σ → Except StackErr Nat × σ
  /-- Go `time.Now().Unix()`. -/
  nowUnix : σ → Int
  /-- The method `EnclaveContext.AddService(serviceId, containerConfigSupplier)`. -/
  addService : String → Supplier σ → σ → Except StackErr ServiceContext × σ
  /-- The method `ServiceContext.ExecCommand(command)`: exit code and output, or an error. -/
  execCommand : ServiceContext → List String → σ → Except StackErr (Int × String) × σ
  /-- The function `cl.WaitForBeaconClientAvailability(restClient, numRetries, timeBetweenRetries)`. -/
  waitForBeaconClientAvailability :
    CLClientRESTClient → Nat → Nat → σ → Option StackErr × σ
  /-- The method `CLClientRESTClient.GetNodeIdentity()`. -/
  getNodeIdentity : CLClientRESTClient → σ → Except StackErr NodeIdentity × σ

/-- Go `os.ModePerm`, the permission bits `0777`. -/
def osModePerm : Nat := 0o777

/-- Go `time.Second`, in nanoseconds. -/
def timeSecond : Nat := 1000000000

/-! ## `prysm_launcher.go` -/

def imageSeparatorDelimiter : Char := ','
def expectedNumImages : Nat := 2

def consensusDataDirpathOnServiceContainer : String := "/consensus-data"

def tcpDiscoveryPortID : String := "tcpDiscovery"
def udpDiscoveryPortID : String := "udpDiscovery"
def rpcPortID : String := "rpc"
def httpPortID : String := "http"
def beaconMonitoringPortID : String := "monitoring"
def validatorMonitoringPortID : String := "monitoring"

def discoveryTCPPortNum : Nat := 13000
def discoveryUDPPortNum : Nat := 12000
def rpcPortNum : Nat := 4000
def httpPortNum : Nat := 3500
def beaconMonitoringPortNum : Nat := 8080
def validatorMonitoringPortNum : Nat := 8081

def genesisConfigYmlRelFilepathInSharedDir : String := "genesis-config.yml"
def genesisSszRelFilepathInSharedDir : String := "genesis.ssz"
def prysmPasswordTxtRelFilepathInSharedDir : String := "prysm-password.txt"

def validatorKeysRelDirpathInSharedDir : String := "validator-keys"
def validatorSecretsRelDirpathInSharedDir : String := "validator-secrets"

def maxNumHealthcheckRetries : Nat := 100
def timeBetweenHealthcheckRetries : Nat := 5 * timeSecond

def beaconSuffixServiceId : String := "beacon"
def validatorSuffixServiceId : String := "validator"

def minPeers : Nat := 1

def metricsPath : String := "/metrics"

def beaconNodeUsedPorts : PortMap :=
  [ (tcpDiscoveryPortID, ⟨discoveryTCPPortNum, .TCP⟩),
    (udpDiscoveryPortID, ⟨discoveryUDPPortNum, .UDP⟩),
    (rpcPortID, ⟨rpcPortNum, .TCP⟩),
    (httpPortID, ⟨httpPortNum, .TCP⟩),
    (beaconMonitoringPortID, ⟨beaconMonitoringPortNum, .TCP⟩) ]

def validatorNodeUsedPorts : PortMap :=
  [ (validatorMonitoringPortID, ⟨validatorMonitoringPortNum, .TCP⟩) ]

def prysmLogLevels : List (GlobalClientLogLevel × String) :=
  [ (.Error, "error"), (.Warn, "warn"), (.Info, "info"), (.Debug, "debug"), (.Trace, "trace") ]

/-- The launcher `PrysmCLClientLauncher`. -/
structure PrysmCLClientLauncher where
  genesisConfigYmlFilepathOnModuleContainer : String
  genesisSszFilepathOnModuleContainer : String
  jwtSecretFilepathOnModuleContainer : String
  prysmPassword : String
deriving DecidableEq, Repr

/-- The supplier returned by `getBeaconContainerConfigSupplier`; `bootnodeContext = none` is the
nil pointer. -/
def getBeaconContainerConfigSupplier {σ : Type} (env : Collaborators σ)
    (beaconImage : String) (bootnodeContext : Option CLClientContext)
    (elClientContext : ELClientContext) (logLevel : String)
    (genesisConfigYmlFilepathOnModuleContainer : String)
    (genesisSszFilepathOnModuleContainer : String)
    (extraParams : List String) : Supplier σ :=
  fun privateIpAddr sharedDir w =>
    let genesisConfigYmlSharedPath :=
      env.getChildPath sharedDir genesisConfigYmlRelFilepathInSharedDir
    match env.copyFileToSharedPath genesisConfigYmlFilepathOnModuleContainer
        genesisConfigYmlSharedPath w with
    | (some err, w1) =>
      (.error (.propagate err
        ("An error occurred copying the genesis config YML from '" ++
          genesisConfigYmlFilepathOnModuleContainer ++ "' to shared dir relative path '" ++
          genesisConfigYmlRelFilepathInSharedDir ++ "'")), w1)
    | (none, w1) =>
    let genesisSszSharedPath := env.getChildPath sharedDir genesisSszRelFilepathInSharedDir
    match env.copyFileToSharedPath genesisSszFilepathOnModuleContainer genesisSszSharedPath w1 with
    | (some err, w2) =>
      (.error (.propagate err
        ("An error occurred copying the genesis SSZ from '" ++
          genesisSszFilepathOnModuleContainer ++ "' to shared dir relative path '" ++
          genesisSszRelFilepathInSharedDir ++ "'")), w2)
    | (none, w2) =>
    let elClientRpcUrlStr :=
      "http://" ++ elClientContext.GetIPAddress ++ ":" ++ fmtNat elClientContext.GetRPCPortNum
    let cmdArgs : List String := [
      "--accept-terms-of-use=true",
      "--prater",
      "--datadir=" ++ consensusDataDirpathOnServiceContainer,
      "--chain-config-file=" ++ genesisConfigYmlSharedPath.GetAbsPathOnServiceContainer,
      "--genesis-state=" ++ genesisSszSharedPath.GetAbsPathOnServiceContainer,
      "--http-web3provider=" ++ elClientRpcUrlStr,
      "--execution-provider=" ++ elClientRpcUrlStr,
      "--http-modules=prysm,eth",
      "--rpc-host=" ++ privateIpAddr,
      "--rpc-port=" ++ fmtNat rpcPortNum,
      "--grpc-gateway-host=0.0.0.0",
      "--grpc-gateway-port=" ++ fmtNat httpPortNum,
      "--p2p-tcp-port=" ++ fmtNat discoveryTCPPortNum,
      "--p2p-udp-port=" ++ fmtNat discoveryUDPPortNum,
      "--min-sync-peers=" ++ fmtNat minPeers,
      "--monitoring-host=" ++ privateIpAddr,
      "--monitoring-port=" ++ fmtNat beaconMonitoringPortNum,
      "--verbosity=" ++ logLevel,
      "--subscribe-all-subnets=true",
      "--disable-monitoring=false",
      "--monitoring-host=" ++ privateIpAddr,
      "--monitoring-port=" ++ fmtNat beaconMonitoringPortNum ]
    let cmdArgs :=
      match bootnodeContext with
      | some ctx => cmdArgs ++ ["--bootstrap-node=" ++ ctx.GetENR]
      | none => cmdArgs
    let cmdArgs := if extraParams.length > 0 then cmdArgs ++ extraParams else cmdArgs
    (.ok { image := beaconImage, usedPorts := beaconNodeUsedPorts, cmdOverride := cmdArgs }, w2)

/-- The supplier returned by `getValidatorContainerConfigSupplier`. -/
def getValidatorContainerConfigSupplier {σ : Type} (env : Collaborators σ)
    (launcher : PrysmCLClientLauncher)
    (validatorImage : String) (serviceId : String) (logLevel : String)
    (beaconRPCEndpoint : String) (beaconHTTPEndpoint : String)
    (validatorKeysDirpathOnModuleContainer : String)
    (validatorSecretsDirpathOnModuleContainer : String)
    (extraParams : List String) : Supplier σ :=
  fun privateIpAddr sharedDir w =>
    let genesisConfigYmlSharedPath :=
      env.getChildPath sharedDir genesisConfigYmlRelFilepathInSharedDir
    match env.copyFileToSharedPath launcher.genesisConfigYmlFilepathOnModuleContainer
        genesisConfigYmlSharedPath w with
    | (some err, w1) =>
      (.error (.propagate err
        ("An error occurred copying the genesis config YML from '" ++
          launcher.genesisConfigYmlFilepathOnModuleContainer ++
          "' to shared dir relative path '" ++
          genesisConfigYmlRelFilepathInSharedDir ++ "'")), w1)
    | (none, w1) =>
    let validatorKeysSharedPath := env.getChildPath sharedDir validatorKeysRelDirpathInSharedDir
    match env.recursiveCopy validatorKeysDirpathOnModuleContainer
        validatorKeysSharedPath.GetAbsPathOnThisContainer w1 with
    | (some err, w2) =>
      (.error (.propagate err
        ("An error occurred copying the validator keys into the shared directory so the node " ++
          "can consume them")), w2)
    | (none, w2) =>
    let validatorSecretsSharedPath :=
      env.getChildPath sharedDir validatorSecretsRelDirpathInSharedDir
    match env.recursiveCopy validatorSecretsDirpathOnModuleContainer
        validatorSecretsSharedPath.GetAbsPathOnThisContainer w2 with
    | (some err, w3) =>
      (.error (.propagate err
        ("An error occurred copying the validator secrets into the shared directory so the " ++
          "node can consume them")), w3)
    | (none, w3) =>
    let prysmPasswordTxtSharedPath :=
      env.getChildPath sharedDir prysmPasswordTxtRelFilepathInSharedDir
    let prysmPasswordTxtFilepathOnModuleContainer :=
      prysmPasswordTxtSharedPath.GetAbsPathOnThisContainer
    match env.writeFile prysmPasswordTxtFilepathOnModuleContainer launcher.prysmPassword
        osModePerm w3 with
    | (some err, w4) =>
      (.error (.propagate err
        ("An error occurred writing the Prysm keystore password to file '" ++
          prysmPasswordTxtFilepathOnModuleContainer ++ "'")), w4)
    | (none, w4) =>
    let rootDirpath := env.pathJoin consensusDataDirpathOnServiceContainer serviceId
    let cmdArgs : List String := [
      "--accept-terms-of-use=true",
      "--prater",
      "--beacon-rpc-gateway-provider=" ++ beaconHTTPEndpoint,
      "--beacon-rpc-provider=" ++ beaconRPCEndpoint,
      "--wallet-dir=" ++ validatorSecretsSharedPath.GetAbsPathOnServiceContainer,
      "--wallet-password-file=" ++ prysmPasswordTxtSharedPath.GetAbsPathOnServiceContainer,
      "--datadir=" ++ rootDirpath,
      "--monitoring-host=" ++ privateIpAddr,
      "--monitoring-port=" ++ fmtNat validatorMonitoringPortNum,
      "--verbosity=" ++ logLevel,
      "--disable-monitoring=false",
      "--monitoring-host=" ++ privateIpAddr,
      "--monitoring-port=" ++ fmtNat validatorMonitoringPortNum ]
    let cmdArgs := if extraParams.length > 0 then cmdArgs ++ extraParams else cmdArgs
    (.ok { image := validatorImage, usedPorts := validatorNodeUsedPorts,
           cmdOverride := cmdArgs }, w4)

/-! ## Runs and their traces -/

/-- A call of `Launch` to the runtime or to the REST client, with the answer it got. -/
inductive LaunchCall (σ : Type) where
  | addService (serviceId : String) (supplier : Supplier σ)
      (answer : Except StackErr ServiceContext)
  | waitForBeaconClientAvailability (restClient : CLClientRESTClient)
      (numRetries : Nat) (timeBetweenRetries : Nat) (answer : Option StackErr)
  | getNodeIdentity (restClient : CLClientRESTClient) (answer : Except StackErr NodeIdentity)

/-- Whether a call is an `AddService`. -/
def LaunchCall.isAddService {σ : Type} : LaunchCall σ → Bool
  | .addService _ _ _ => true
  | _ => false

/-- Whether a call is a `GetNodeIdentity`. -/
def LaunchCall.isGetNodeIdentity {σ : Type} : LaunchCall σ → Bool
  | .getNodeIdentity _ _ => true
  | _ => false

/-- The service id of an `AddService` call. -/
def LaunchCall.addedServiceId {σ : Type} : LaunchCall σ → Option String
  | .addService id _ _ => some id
  | _ => none

/-- What a run leaves behind: the returned pair (`.error e` is `nil, e`; `.ok x` is `x, nil`),
the world after the run, and the calls made, oldest first. -/
structure Outcome (σ α τ : Type) where
  result : Except StackErr α
  world : σ
  trace : List τ

/-- The method `PrysmCLClientLauncher.Launch`, run in the world `w`. -/
def Launch {σ : Type} (env : Collaborators σ) (launcher : PrysmCLClientLauncher)
    (serviceId : String) (delimitedImagesStr : String) (participantLogLevel : String)
    (globalLogLevel : GlobalClientLogLevel) (bootnodeContext : Option CLClientContext)
    (elClientContext : ELClientContext) (nodeKeystoreDirpaths : NodeTypeKeystoreDirpaths)
    (extraBeaconParams : List String) (extraValidatorParams : List String) (w : σ) :
    Outcome σ CLClientContext (LaunchCall σ) :=
  let imageStrs := Split delimitedImagesStr imageSeparatorDelimiter
  if imageStrs.length ≠ expectedNumImages then
    ⟨.error (.newError
      ("Expected Prysm image string '" ++ delimitedImagesStr ++ "' to contain " ++
        fmtNat expectedNumImages ++ " images - Beacon and validator - delimited by '" ++
        String.singleton imageSeparatorDelimiter ++ "'")), w, []⟩
  else
  -- both indices are in range here
  let beaconImage := imageStrs.getD 0 ""
  let validatorImage := imageStrs.getD 1 ""
  -- `len(x) == 0` holds of the empty string only, whether bytes or characters are counted
  if (TrimSpace beaconImage).length = 0 then
    ⟨.error (.newError "An empty Prysm Beacon image was provided"), w, []⟩
  else
  if (TrimSpace validatorImage).length = 0 then
    ⟨.error (.newError "An empty Prysm validator image was provided"), w, []⟩
  else
  let beaconNodeServiceId := serviceId ++ "-" ++ beaconSuffixServiceId
  let validatorNodeServiceId := serviceId ++ "-" ++ validatorSuffixServiceId
  match env.getClientLogLevelStrOrDefault participantLogLevel globalLogLevel prysmLogLevels with
  | .error err =>
    ⟨.error (.propagate err
      ("An error occurred getting the client log level using participant log level '" ++
        participantLogLevel ++ "' and global log level '" ++ env.fmtLogLevel globalLogLevel ++
        "'")), w, []⟩
  | .ok logLevel =>
  let beaconContainerConfigSupplier :=
    getBeaconContainerConfigSupplier env beaconImage bootnodeContext elClientContext logLevel
      launcher.genesisConfigYmlFilepathOnModuleContainer
      launcher.genesisSszFilepathOnModuleContainer extraBeaconParams
  match env.addService beaconNodeServiceId beaconContainerConfigSupplier w with
  | (.error err, w1) =>
    ⟨.error (.propagate err
      ("An error occurred launching the Prysm CL beacon client with service ID '" ++
        serviceId ++ "'")), w1,
      [.addService beaconNodeServiceId beaconContainerConfigSupplier (.error err)]⟩
  | (.ok beaconServiceCtx, w1) =>
  let t1 : List (LaunchCall σ) :=
    [.addService beaconNodeServiceId beaconContainerConfigSupplier (.ok beaconServiceCtx)]
  match beaconServiceCtx.GetPrivatePorts.lookup httpPortID with
  | none =>
    ⟨.error (.newError
      ("Expected new Prysm beacon service to have port with ID '" ++ httpPortID ++
        "', but none was found")), w1, t1⟩
  | some httpPort =>
  let beaconRestClient : CLClientRESTClient :=
    ⟨beaconServiceCtx.GetPrivateIPAddress, httpPort.GetNumber⟩
  match env.waitForBeaconClientAvailability beaconRestClient maxNumHealthcheckRetries
      timeBetweenHealthcheckRetries w1 with
  | (some err, w2) =>
    ⟨.error (.propagate err
      "An error occurred waiting for the new Prysm beacon node to become available"), w2,
      t1 ++ [.waitForBeaconClientAvailability beaconRestClient maxNumHealthcheckRetries
        timeBetweenHealthcheckRetries (some err)]⟩
  | (none, w2) =>
  let t2 := t1 ++ [.waitForBeaconClientAvailability beaconRestClient maxNumHealthcheckRetries
    timeBetweenHealthcheckRetries none]
  match env.getNodeIdentity beaconRestClient w2 with
  | (.error err, w3) =>
    ⟨.error (.propagate err
      ("An error occurred getting the new Prysm beacon node's identity, which is necessary " ++
        "to retrieve its ENR")), w3, t2 ++ [.getNodeIdentity beaconRestClient (.error err)]⟩
  | (.ok nodeIdentity, w3) =>
  let t3 := t2 ++ [.getNodeIdentity beaconRestClient (.ok nodeIdentity)]
  let beaconRPCEndpoint := beaconServiceCtx.GetPrivateIPAddress ++ ":" ++ fmtNat rpcPortNum
  let beaconHTTPEndpoint := beaconServiceCtx.GetPrivateIPAddress ++ ":" ++ fmtNat httpPortNum
  let validatorContainerConfigSupplier :=
    getValidatorContainerConfigSupplier env launcher validatorImage validatorNodeServiceId
      logLevel beaconRPCEndpoint beaconHTTPEndpoint nodeKeystoreDirpaths.RawKeysDirpath
      nodeKeystoreDirpaths.PrysmDirpath extraValidatorParams
  match env.addService validatorNodeServiceId validatorContainerConfigSupplier w3 with
  | (.error err, w4) =>
    ⟨.error (.propagate err
      ("An error occurred launching the Prysm CL validator client with service ID '" ++
        serviceId ++ "'")), w4,
      t3 ++ [.addService validatorNodeServiceId validatorContainerConfigSupplier (.error err)]⟩
  | (.ok validatorServiceCtx, w4) =>
  let t4 := t3 ++
    [.addService validatorNodeServiceId validatorContainerConfigSupplier (.ok validatorServiceCtx)]
  match beaconServiceCtx.GetPrivatePorts.lookup beaconMonitoringPortID with
  | none =>
    ⟨.error (.newError
      ("Expected new Prysm Beacon service to have port with ID '" ++ beaconMonitoringPortID ++
        "', but none was found")), w4, t4⟩
  | some beaconMonitoringPort =>
  let beaconMetricsUrl :=
    beaconServiceCtx.GetPrivateIPAddress ++ ":" ++ fmtNat beaconMonitoringPort.GetNumber
  match validatorServiceCtx.GetPrivatePorts.lookup validatorMonitoringPortID with
  | none =>
    ⟨.error (.newError
      ("Expected new Prysm Validator service to have port with ID '" ++
        validatorMonitoringPortID ++ "', but none was found")), w4, t4⟩
  | some validatorMonitoringPort =>
  let validatorMetricsUrl :=
    validatorServiceCtx.GetPrivateIPAddress ++ ":" ++ fmtNat validatorMonitoringPort.GetNumber
  let beaconNodeMetricsInfo : CLNodeMetricsInfo :=
    ⟨beaconNodeServiceId, metricsPath, beaconMetricsUrl⟩
  let validatorNodeMetricsInfo : CLNodeMetricsInfo :=
    ⟨validatorNodeServiceId, metricsPath, validatorMetricsUrl⟩
  let nodesMetricsInfo := [beaconNodeMetricsInfo, validatorNodeMetricsInfo]
  let result : CLClientContext :=
    ⟨nodeIdentity.ENR, beaconServiceCtx.GetPrivateIPAddress, httpPortNum, nodesMetricsInfo,
      beaconRestClient⟩
  ⟨.ok result, w4, t4⟩

/-! ## The calls a run is expected to make

These are written from the description of the orchestration, not from the body of `Launch`; the
properties below compare the trace of `Launch` with them. -/

/-- The launch of the beacon service `S-beacon`: an `AddService` whose supplier is the beacon
builder for the given image and log level. -/
def beaconLaunchCall {σ : Type} (env : Collaborators σ) (launcher : PrysmCLClientLauncher)
    (serviceId beaconImage logLevel : String) (bootnodeContext : Option CLClientContext)
    (elClientContext : ELClientContext) (extraBeaconParams : List String)
    (answer : Except StackErr ServiceContext) : LaunchCall σ :=
  .addService (serviceId ++ "-beacon")
    (getBeaconContainerConfigSupplier env beaconImage bootnodeContext elClientContext logLevel
      launcher.genesisConfigYmlFilepathOnModuleContainer
      launcher.genesisSszFilepathOnModuleContainer extraBeaconParams)
    answer

/-- The health wait on the beacon service: at most 100 polls, 5 seconds apart, of the REST
client at the beacon's private address and `http` port. -/
def healthWaitCall {σ : Type} (beaconServiceCtx : ServiceContext) (httpPort : PortSpec)
    (answer : Option StackErr) : LaunchCall σ :=
  .waitForBeaconClientAvailability ⟨beaconServiceCtx.privateIPAddress, httpPort.number⟩
    100 5000000000 answer

/-- The identity fetch from the beacon's REST client. -/
def identityCall {σ : Type} (beaconServiceCtx : ServiceContext) (httpPort : PortSpec)
    (answer : Except StackErr NodeIdentity) : LaunchCall σ :=
  .getNodeIdentity ⟨beaconServiceCtx.privateIPAddress, httpPort.number⟩ answer

/-- The launch of the validator service `S-validator`: an `AddService` whose supplier is the
validator builder bound to the beacon's endpoints `A:4000` and `A:3500`, `A` being the private
address of the beacon service. -/
def validatorLaunchCall {σ : Type} (env : Collaborators σ) (launcher : PrysmCLClientLauncher)
    (serviceId validatorImage logLevel : String) (beaconServiceCtx : ServiceContext)
    (nodeKeystoreDirpaths : NodeTypeKeystoreDirpaths) (extraValidatorParams : List String)
    (answer : Except StackErr ServiceContext) : LaunchCall σ :=
  .addService (serviceId ++ "-validator")
    (getValidatorContainerConfigSupplier env launcher validatorImage (serviceId ++ "-validator")
      logLevel (beaconServiceCtx.privateIPAddress ++ ":4000")
      (beaconServiceCtx.privateIPAddress ++ ":3500") nodeKeystoreDirpaths.RawKeysDirpath
      nodeKeystoreDirpaths.PrysmDirpath extraValidatorParams)
    answer

end Prysm

namespace ClGenesis

open Prysm

/-! ## `cl_genesis_data_generator.go` -/

def clGenesisGenerationInstanceSharedDirpathPrefix : String := "cl-genesis-"

def configDirname : String := "config"
def genesisGenerationConfigYmlFilename : String := "config.yaml"
def genesisGenerationMnemonicsYmlFilename : String := "mnemonics.yaml"

def outputDirname : String := "output"
def tranchesDiranme : String := "tranches"
def genesisConfigYmlFilename : String := "config.yaml"
def genesisStateFilename : String := "genesis.ssz"
def deployBlockFilename : String := "deploy_block.txt"
def depositContractFilename : String := "deposit_contract.txt"
def jwtSecretFilename : String := "jwtsecret"

def clGenesisGenerationBinaryFilepathOnContainer : String := "/usr/local/bin/eth2-testnet-genesis"
def deployBlock : String := "0"
def eth1Block : String := "0x0000000000000000000000000000000000000000000000000000000000000000"
def successCommandExitCode : Int := 0

/-- A call of the generator to the file system or to the service, with the answer it got. -/
inductive GenesisCall where
  | mkdir (name : String) (perm : Nat) (answer : Option StackErr)
  | fillTemplateToSharedPath (tmpl : Template) (data : clGenesisConfigTemplateData)
      (destination : SharedPath) (answer : Option StackErr)
  | osOpen (name : String) (answer : Except StackErr File)
  | osCreate (name : String) (answer : Except StackErr File)
  | ioCopy (dst : File) (src : File) (answer : Except StackErr Nat)
  | writeFile (filename : String) (data : String) (perm : Nat) (answer : Option StackErr)
  | execCommand (serviceCtx : ServiceContext) (command : List String)
      (answer : Except StackErr (Int × String))
  | copyFileToSharedPath (srcFilepath : String) (destSharedPath : SharedPath)
      (answer : Option StackErr)
deriving DecidableEq, Repr

/-- The loop of `GenerateCLGenesisData` over `allSharedDirsToCreate`: it makes the directories
in order and stops at the first failure. -/
def createSharedDirs {σ : Type} (env : Collaborators σ) :
    List SharedPath → σ → Outcome σ Unit GenesisCall
  | [], w => ⟨.ok (), w, []⟩
  | sharedDirToCreate :: rest, w =>
    let toCreateDirpathOnModuleContainer := sharedDirToCreate.GetAbsPathOnThisContainer
    match env.mkdir toCreateDirpathOnModuleContainer osModePerm w with
    | (some err, w1) =>
      ⟨.error (.propagate err
        ("An error occurred creating directory '" ++ toCreateDirpathOnModuleContainer ++ "'")),
        w1, [.mkdir toCreateDirpathOnModuleContainer osModePerm (some err)]⟩
    | (none, w1) =>
      let r := createSharedDirs env rest w1
      ⟨r.result, r.world, .mkdir toCreateDirpathOnModuleContainer osModePerm none :: r.trace⟩

/-- The function `createGenesisGenerationConfig`. -/
def createGenesisGenerationConfig {σ : Type} (env : Collaborators σ)
    (genesisGenerationConfigYmlTemplate : Template)
    (genesisGenerationMnemonicsYmlTemplate : Template)
    (templateData : clGenesisConfigTemplateData) (configSharedDir : SharedPath) (w : σ) :
    Outcome σ (SharedPath × SharedPath) GenesisCall :=
  let genesisGenerationConfigSharedFile :=
    env.getChildPath configSharedDir genesisGenerationConfigYmlFilename
  match env.fillTemplateToSharedPath genesisGenerationConfigYmlTemplate templateData
      genesisGenerationConfigSharedFile w with
  | (some err, w1) =>
    ⟨.error (.propagate err
      "An error occurred filling the CL genesis generation config YML template"), w1,
      [.fillTemplateToSharedPath genesisGenerationConfigYmlTemplate templateData
        genesisGenerationConfigSharedFile (some err)]⟩
  | (none, w1) =>
  let t1 : List GenesisCall :=
    [.fillTemplateToSharedPath genesisGenerationConfigYmlTemplate templateData
      genesisGenerationConfigSharedFile none]
  let genesisGenerationMnemonicsSharedFile :=
    env.getChildPath configSharedDir genesisGenerationMnemonicsYmlFilename
  match env.fillTemplateToSharedPath genesisGenerationMnemonicsYmlTemplate templateData
      genesisGenerationMnemonicsSharedFile w1 with
  | (some err, w2) =>
    ⟨.error (.propagate err
      "An error occurred filling the CL genesis generation mnemonics YML template"), w2,
      t1 ++ [.fillTemplateToSharedPath genesisGenerationMnemonicsYmlTemplate templateData
        genesisGenerationMnemonicsSharedFile (some err)]⟩
  | (none, w2) =>
  ⟨.ok (genesisGenerationConfigSharedFile, genesisGenerationMnemonicsSharedFile), w2,
    t1 ++ [.fillTemplateToSharedPath genesisGenerationMnemonicsYmlTemplate templateData
      genesisGenerationMnemonicsSharedFile none]⟩

/-- The function `runClGenesisGeneration`. -/
def runClGenesisGeneration {σ : Type} (env : Collaborators σ)
    (genesisGenerationConfigSharedFile : SharedPath)
    (genesisGenerationMnemonicsSharedFile : SharedPath)
    (jwtSecretFilepathOnModuleContainer : String) (genesisTimestamp : Nat)
    (depositContractAddress : String) (serviceCtx : ServiceContext)
    (outputSharedDir : SharedPath) (w : σ) : Outcome σ CLGenesisData GenesisCall :=
  let genesisGenerationConfigFilepathOnThisContainer :=
    genesisGenerationConfigSharedFile.GetAbsPathOnThisContainer
  match env.osOpen genesisGenerationConfigFilepathOnThisContainer w with
  | (.error err, w1) =>
    ⟨.error (.propagate err
      ("An error occurred opening genesis generation config file '" ++
        genesisGenerationConfigFilepathOnThisContainer ++ "' for reading")), w1,
      [.osOpen genesisGenerationConfigFilepathOnThisContainer (.error err)]⟩
  | (.ok genesisGenerationConfigSrcFp, w1) =>
  let t1 : List GenesisCall :=
    [.osOpen genesisGenerationConfigFilepathOnThisContainer (.ok genesisGenerationConfigSrcFp)]
  let genesisConfigSharedFile := env.getChildPath outputSharedDir genesisConfigYmlFilename
  let genesisConfigFilepathOnThisContainer := genesisConfigSharedFile.GetAbsPathOnThisContainer
  match env.osCreate genesisConfigFilepathOnThisContainer w1 with
  | (.error err, w2) =>
    ⟨.error (.propagate err
      ("An error occurred opening genesis config file '" ++
        genesisConfigFilepathOnThisContainer ++ "' for writing")), w2,
      t1 ++ [.osCreate genesisConfigFilepathOnThisContainer (.error err)]⟩
  | (.ok genesisConfigFp, w2) =>
  let t2 := t1 ++ [.osCreate genesisConfigFilepathOnThisContainer (.ok genesisConfigFp)]
  match env.ioCopy genesisConfigFp genesisGenerationConfigSrcFp w2 with
  | (.error err, w3) =>
    ⟨.error (.propagate err
      ("An error occurred copying the genesis generation config file '" ++
        genesisGenerationConfigFilepathOnThisContainer ++ "' to '" ++
        genesisConfigFilepathOnThisContainer ++ "'")), w3,
      t2 ++ [.ioCopy genesisConfigFp genesisGenerationConfigSrcFp (.error err)]⟩
  | (.ok written, w3) =>
  let t3 := t2 ++ [.ioCopy genesisConfigFp genesisGenerationConfigSrcFp (.ok written)]
  -- Create deploy block file
  let deployBlockSharedFile := env.getChildPath outputSharedDir deployBlockFilename
  let deployBlockFilepathOnThisContainer := deployBlockSharedFile.GetAbsPathOnThisContainer
  match env.writeFile deployBlockFilepathOnThisContainer deployBlock osModePerm w3 with
  | (some err, w4) =>
    ⟨.error (.propagate err
      ("An error occurred writing the deploy block file at '" ++
        deployBlockFilepathOnThisContainer ++ "'")), w4,
      t3 ++ [.writeFile deployBlockFilepathOnThisContainer deployBlock osModePerm (some err)]⟩
  | (none, w4) =>
  let t4 := t3 ++ [.writeFile deployBlockFilepathOnThisContainer deployBlock osModePerm none]
  -- Create deposit contract file
  let depositContractSharedFile := env.getChildPath outputSharedDir depositContractFilename
  let depositContractFilepathOnThisContainer :=
    depositContractSharedFile.GetAbsPathOnThisContainer
  match env.writeFile depositContractFilepathOnThisContainer depositContractAddress
      osModePerm w4 with
  | (some err, w5) =>
    ⟨.error (.propagate err
      ("An error occurred writing the deposit contract file at '" ++
        depositContractFilepathOnThisContainer ++ "'")), w5,
      t4 ++ [.writeFile depositContractFilepathOnThisContainer depositContractAddress
        osModePerm (some err)]⟩
  | (none, w5) =>
  let t5 := t4 ++ [.writeFile depositContractFilepathOnThisContainer depositContractAddress
    osModePerm none]
  let genesisStateSharedFile := env.getChildPath outputSharedDir genesisStateFilename
  let tranchesSharedDir := env.getChildPath outputSharedDir tranchesDiranme
  let clGenesisGenerationCmdArgs : List String := [
    clGenesisGenerationBinaryFilepathOnContainer,
    "phase0",
    "--config", genesisGenerationConfigSharedFile.GetAbsPathOnServiceContainer,
    "--eth1-block", eth1Block,
    "--mnemonics", genesisGenerationMnemonicsSharedFile.GetAbsPathOnServiceContainer,
    "--timestamp", fmtNat genesisTimestamp,
    "--tranches-dir", tranchesSharedDir.GetAbsPathOnServiceContainer,
    "--state-output", genesisStateSharedFile.GetAbsPathOnServiceContainer ]
  match env.execCommand serviceCtx clGenesisGenerationCmdArgs w5 with
  | (.error err, w6) =>
    ⟨.error (.propagate err
      ("An error occurred executing command '" ++ Join clGenesisGenerationCmdArgs " " ++
        "' to generate the CL genesis data")), w6,
      t5 ++ [.execCommand serviceCtx clGenesisGenerationCmdArgs (.error err)]⟩
  | (.ok (genesisGenerationExitCode, genesisGenerationOutput), w6) =>
  let t6 := t5 ++ [.execCommand serviceCtx clGenesisGenerationCmdArgs
    (.ok (genesisGenerationExitCode, genesisGenerationOutput))]
  if genesisGenerationExitCode ≠ successCommandExitCode then
    ⟨.error (.newError
      ("Expected CL genesis data generation command '" ++ Join clGenesisGenerationCmdArgs " " ++
        "' to return exit code '" ++ fmtInt successCommandExitCode ++ "' but returned '" ++
        fmtInt genesisGenerationExitCode ++ "' with the following logs:\n" ++
        genesisGenerationOutput)), w6, t6⟩
  else
  let jwtSecretSharedFile := env.getChildPath outputSharedDir jwtSecretFilename
  match env.copyFileToSharedPath jwtSecretFilepathOnModuleContainer jwtSecretSharedFile w6 with
  | (some err, w7) =>
    ⟨.error (.propagate err
      ("An error occurred copying JWT secret file from path '" ++
        jwtSecretFilepathOnModuleContainer ++ "' to shared filepath '" ++
        jwtSecretSharedFile.GetAbsPathOnThisContainer ++ "'")), w7,
      t6 ++ [.copyFileToSharedPath jwtSecretFilepathOnModuleContainer jwtSecretSharedFile
        (some err)]⟩
  | (none, w7) =>
  let result : CLGenesisData :=
    ⟨outputSharedDir.GetAbsPathOnThisContainer,
      jwtSecretSharedFile.GetAbsPathOnThisContainer,
      genesisConfigSharedFile.GetAbsPathOnThisContainer,
      genesisStateSharedFile.GetAbsPathOnThisContainer⟩
  ⟨.ok result, w7,
    t6 ++ [.copyFileToSharedPath jwtSecretFilepathOnModuleContainer jwtSecretSharedFile none]⟩

/-- The shared directory of one generator run: the child of the service's shared directory
named by the prefix and the Unix time read in the world `w`. -/
def generationInstanceSharedDir {σ : Type} (env : Collaborators σ)
    (serviceCtx : ServiceContext) (w : σ) : SharedPath :=
  env.getChildPath serviceCtx.GetSharedDirectory
    (clGenesisGenerationInstanceSharedDirpathPrefix ++ fmtInt (env.nowUnix w))

/-- The function `GenerateCLGenesisData`, run in the world `w`. -/
def GenerateCLGenesisData {σ : Type} (env : Collaborators σ)
    (genesisGenerationConfigYmlTemplate : Template)
    (genesisGenerationMnemonicsYmlTemplate : Template)
    (jwtSecretFilepathOnModuleContainer : String) (serviceCtx : ServiceContext)
    (genesisUnixTimestamp : Nat) (networkId : String) (depositContractAddress : String)
    (totalTerminalDifficulty : Nat) (secondsPerSlot : Nat) (altairForkEpoch : Nat)
    (mergeForkEpoch : Nat) (preregisteredValidatorKeysMnemonic : String)
    (numValidatorKeysToPreregister : Nat) (w : σ) : Outcome σ CLGenesisData GenesisCall :=
  let generationInstanceSharedDir := generationInstanceSharedDir env serviceCtx w
  let configSharedDir := env.getChildPath generationInstanceSharedDir configDirname
  let outputSharedDir := env.getChildPath generationInstanceSharedDir outputDirname
  let allSharedDirsToCreate := [generationInstanceSharedDir, configSharedDir, outputSharedDir]
  match createSharedDirs env allSharedDirsToCreate w with
  | ⟨.error err, w1, t1⟩ => ⟨.error err, w1, t1⟩
  | ⟨.ok _, w1, t1⟩ =>
  let templateData : clGenesisConfigTemplateData :=
    { NetworkId := networkId
      SecondsPerSlot := secondsPerSlot
      UnixTimestamp := genesisUnixTimestamp
      TotalTerminalDifficulty := totalTerminalDifficulty
      AltairForkEpoch := altairForkEpoch
      MergeForkEpoch := mergeForkEpoch
      NumValidatorKeysToPreregister := numValidatorKeysToPreregister
      PreregisteredValidatorKeysMnemonic := preregisteredValidatorKeysMnemonic
      DepositContractAddress := depositContractAddress }
  match createGenesisGenerationConfig env genesisGenerationConfigYmlTemplate
      genesisGenerationMnemonicsYmlTemplate templateData configSharedDir w1 with
  | ⟨.error err, w2, t2⟩ =>
    ⟨.error (.propagate err "An error occurred creating the CL genesis generation config"),
      w2, t1 ++ t2⟩
  | ⟨.ok (genesisGenerationConfigSharedFile, genesisGenerationMnemonicsSharedFile), w2, t2⟩ =>
  match runClGenesisGeneration env genesisGenerationConfigSharedFile
      genesisGenerationMnemonicsSharedFile jwtSecretFilepathOnModuleContainer
      genesisUnixTimestamp depositContractAddress serviceCtx outputSharedDir w2 with
  | ⟨.error err, w3, t3⟩ =>
    ⟨.error (.propagate err "An error occurred running the CL genesis generation"),
      w3, t1 ++ t2 ++ t3⟩
  | ⟨.ok result, w3, t3⟩ => ⟨.ok result, w3, t1 ++ t2 ++ t3⟩

end ClGenesis

/-! ## A simulated world

A small deterministic world on which the runs above can be evaluated: operations fail when they
are named in `failing`, the runtime gives every service the next address of `10.0.0.0/24` from
`.5` on and the ports its launch specification declares. -/

namespace Sim

open Prysm ClGenesis

/-- The state of the simulated world. -/
structure World where
  clock : Int
  launched : List (String × ContainerConfig)
  failing : List String
  execAnswer : Int × String
deriving DecidableEq, Repr

/-- Fail with an external error when `what` is listed as failing. -/
def attempt (what : String) (w : World) : Option StackErr × World :=
  if what ∈ w.failing then (some (.external ("failed: " ++ what)), w) else (none, w)

/-- The collaborators of the simulated world. -/
def env : Collaborators World where
  getChildPath := fun p e =>
    ⟨p.absPathOnThisContainer ++ "/" ++ e, p.absPathOnServiceContainer ++ "/" ++ e⟩
  pathJoin := fun a b => a ++ "/" ++ b
  fmtLogLevel := fun g => (prysmLogLevels.lookup g).getD ""
  getClientLogLevelStrOrDefault := fun participantLogLevel globalLogLevel clientLogLevels =>
    if participantLogLevel = "" then
      match clientLogLevels.lookup globalLogLevel with
      | some l => .ok l
      | none => .error (.newError "No client log level defined for the global log level")
    else .ok participantLogLevel
  copyFileToSharedPath := fun src _ w => attempt src w
  fillTemplateToSharedPath := fun _ _ dst w => attempt dst.absPathOnThisContainer w
  recursiveCopy := fun src _ w => attempt src w
  writeFile := fun name _ _ w => attempt name w
  mkdir := fun name _ w => attempt name w
  osOpen := fun name w =>
    if name ∈ w.failing then (.error (.external ("failed: " ++ name)), w) else (.ok ⟨3, name⟩, w)
  osCreate := fun name w =>
    if name ∈ w.failing then (.error (.external ("failed: " ++ name)), w) else (.ok ⟨4, name⟩, w)
  ioCopy := fun _ _ w => (.ok 0, w)
  nowUnix := fun w => w.clock
  addService := fun id supplier w =>
    if id ∈ w.failing then (.error (.external ("failed: " ++ id)), w)
    else
      let ip := "10.0.0." ++ fmtNat (5 + w.launched.length)
      let dir : SharedPath := ⟨"/module/" ++ id, "/shared"⟩
      match supplier ip dir w with
      | (.error err, w1) => (.error err, w1)
      | (.ok cfg, w1) =>
        (.ok ⟨id, dir, ip, cfg.usedPorts⟩, { w1 with launched := w1.launched ++ [(id, cfg)] })
  execCommand := fun _ _ w =>
    if "exec" ∈ w.failing then (.error (.external "failed: exec"), w) else (.ok w.execAnswer, w)
  waitForBeaconClientAvailability := fun _ _ _ w => attempt "wait" w
  getNodeIdentity := fun _ w =>
    if "identity" ∈ w.failing then (.error (.external "failed: identity"), w)
    else (.ok ⟨"enr:xyz"⟩, w)

/-- A world in which nothing fails and the genesis command exits with code 0. -/
def calm : World := ⟨1650000000, [], [], (0, "done")⟩

/-- The calm world, except that the operations named in `failing` fail. -/
def failingAt (failing : List String) : World := { calm with failing := failing }

/-- The calm world, except that the genesis command exits with `code` and prints `output`. -/
def exiting (code : Int) (output : String) : World := { calm with execAnswer := (code, output) }

/-- A launcher for the examples. -/
def launcher : PrysmCLClientLauncher := ⟨"/genesis/config.yaml", "/genesis/genesis.ssz", "/genesis/jwtsecret", "password"⟩

/-- An execution-layer context for the examples. -/
def elCtx : ELClientContext := ⟨"10.0.0.2", 8545⟩

/-- Keystore directories for the examples. -/
def keystores : NodeTypeKeystoreDirpaths := ⟨"/keys/raw", "/keys/prysm"⟩

/-- A run of `Launch` in the simulated world for service `cl-0` with log level `info`. -/
def launch (images : String) (bootnode : Option CLClientContext)
    (extraBeacon extraValidator : List String) (w : World) :
    Outcome World CLClientContext (LaunchCall World) :=
  Launch env launcher "cl-0" images "" .Info bootnode elCtx keystores extraBeacon extraValidator w

/-- A service context for the genesis generator examples. -/
def genesisService : ServiceContext := ⟨"cl-genesis", ⟨"/module/gen", "/shared"⟩, "10.0.0.3", []⟩

/-- A run of `GenerateCLGenesisData` in the simulated world with the parameters of the spec's
end-to-end scenario. -/
def generate (w : World) : Outcome World CLGenesisData GenesisCall :=
  GenerateCLGenesisData env "config-template" "mnemonics-template" "/genesis/jwtsecret"
    genesisService 1650000100 "test" "0x4242424242424242424242424242424242424242" 0 12 0 0
    "abandon" 4 w

/-- The launch specification in the answer of a supplier; an empty one when it failed. -/
def specOf (r : Except StackErr ContainerConfig × World) : ContainerConfig :=
  match r.1 with
  | .ok cfg => cfg
  | .error _ => ⟨"", [], []⟩

/-- The shared directory the simulated runtime gives the beacon service `cl-0-beacon`. -/
def beaconDir : SharedPath := ⟨"/module/cl-0-beacon", "/shared"⟩

/-- The shared directory the simulated runtime gives the validator service `cl-0-validator`. -/
def validatorDir : SharedPath := ⟨"/module/cl-0-validator", "/shared"⟩

/-- The beacon supplier of the examples, for image `beacon:latest` and log level `info`. -/
def beaconSupplier (bootnode : Option CLClientContext) (extra : List String) : Supplier World :=
  getBeaconContainerConfigSupplier env "beacon:latest" bootnode elCtx "info"
    "/genesis/config.yaml" "/genesis/genesis.ssz" extra

/-- The validator supplier of the examples, bound to the beacon at `10.0.0.5`. -/
def validatorSupplier (extra : List String) : Supplier World :=
  getValidatorContainerConfigSupplier env launcher "validator:latest" "cl-0-validator" "info"
    "10.0.0.5:4000" "10.0.0.5:3500" "/keys/raw" "/keys/prysm" extra

/-- The beacon launch specification built in the calm world at address `10.0.0.5`. -/
def beaconSpec (bootnode : Option CLClientContext) (extra : List String) : ContainerConfig :=
  specOf (beaconSupplier bootnode extra "10.0.0.5" beaconDir calm)

/-- The validator launch specification built in the calm world at address `10.0.0.6`. -/
def validatorSpec (extra : List String) : ContainerConfig :=
  specOf (validatorSupplier extra "10.0.0.6" validatorDir calm)

/-- A bootnode context for the examples. -/
def bootnode : CLClientContext := ⟨"enr:boot", "10.0.0.4", 3500, [], ⟨"10.0.0.4", 3500⟩⟩

/-- The calm world read `seconds` seconds later. -/
def laterBy (seconds : Int) : World := { calm with clock := calm.clock + seconds }

end Sim

/-! ## Properties of the launcher -/

namespace Prysm

/-- A string has length zero exactly when it is the empty string. -/
theorem length_eq_zero_iff (s : String) : s.length = 0 ↔ s = "" := by
  constructor
  · intro h
    apply String.ext
    exact List.length_eq_zero.mp h
  · intro h
    subst h
    rfl

/-- The beacon service id `S-beacon`, as `fmt.Sprintf("%v-%v", ...)` makes it. -/
theorem beaconNodeServiceId_eq (serviceId : String) :
    serviceId ++ "-" ++ beaconSuffixServiceId = serviceId ++ "-beacon" := by
  rw [String.append_assoc]; rfl

/-- The validator service id `S-validator`. -/
theorem validatorNodeServiceId_eq (serviceId : String) :
    serviceId ++ "-" ++ validatorSuffixServiceId = serviceId ++ "-validator" := by
  rw [String.append_assoc]; rfl

/-- C1: `Launch` returns a `NewError` without calling any collaborator (so without any
`AddService` call) and leaves the world as it was whenever splitting the image string on `,`
does not give exactly 2 segments or one of the 2 segments is blank after trimming; and when the
string splits into exactly 2 segments that are both non-blank after trimming, the image check
lets it pass: the run goes on to resolve the log level and, once that is resolved, its first
call is the `AddService` for the beacon service. -/
theorem Launch_image_check {σ : Type} (env : Collaborators σ) (launcher : PrysmCLClientLauncher)
    (serviceId delimitedImagesStr participantLogLevel : String)
    (globalLogLevel : GlobalClientLogLevel) (bootnodeContext : Option CLClientContext)
    (elClientContext : ELClientContext) (nodeKeystoreDirpaths : NodeTypeKeystoreDirpaths)
    (extraBeaconParams extraValidatorParams : List String) (w : σ) :
    (((Split delimitedImagesStr ',').length ≠ 2 ∨
        TrimSpace ((Split delimitedImagesStr ',').getD 0 "") = "" ∨
        TrimSpace ((Split delimitedImagesStr ',').getD 1 "") = "") →
      (∃ msg, (Launch env launcher serviceId delimitedImagesStr participantLogLevel
          globalLogLevel bootnodeContext elClientContext nodeKeystoreDirpaths extraBeaconParams
          extraValidatorParams w).result = .error (.newError msg)) ∧
      (Launch env launcher serviceId delimitedImagesStr participantLogLevel
          globalLogLevel bootnodeContext elClientContext nodeKeystoreDirpaths extraBeaconParams
          extraValidatorParams w).trace = [] ∧
      (Launch env launcher serviceId delimitedImagesStr participantLogLevel
          globalLogLevel bootnodeContext elClientContext nodeKeystoreDirpaths extraBeaconParams
          extraValidatorParams w).world = w) ∧
    (∀ beaconImage validatorImage,
      Split delimitedImagesStr ',' = [beaconImage, validatorImage] →
      TrimSpace beaconImage ≠ "" → TrimSpace validatorImage ≠ "" →
      (∀ err, env.getClientLogLevelStrOrDefault participantLogLevel globalLogLevel
          prysmLogLevels = .error err →
        ∃ msg, (Launch env launcher serviceId delimitedImagesStr participantLogLevel
          globalLogLevel bootnodeContext elClientContext nodeKeystoreDirpaths extraBeaconParams
          extraValidatorParams w).result = .error (.propagate err msg)) ∧
      (∀ logLevel, env.getClientLogLevelStrOrDefault participantLogLevel globalLogLevel
          prysmLogLevels = .ok logLevel →
        ∃ answer rest, (Launch env launcher serviceId delimitedImagesStr participantLogLevel
          globalLogLevel bootnodeContext elClientContext nodeKeystoreDirpaths extraBeaconParams
          extraValidatorParams w).trace =
          .addService (serviceId ++ "-beacon")
            (getBeaconContainerConfigSupplier env beaconImage bootnodeContext elClientContext
              logLevel launcher.genesisConfigYmlFilepathOnModuleContainer
              launcher.genesisSszFilepathOnModuleContainer extraBeaconParams) answer :: rest)) := by
  refine ⟨?_, ?_⟩
  · intro h
    unfold Launch
    simp only [imageSeparatorDelimiter, expectedNumImages, length_eq_zero_iff]
    split
    · exact ⟨⟨_, rfl⟩, rfl, rfl⟩
    · split
      · exact ⟨⟨_, rfl⟩, rfl, rfl⟩
      · split
        · exact ⟨⟨_, rfl⟩, rfl, rfl⟩
        · rename_i h1 h2 h3
          rcases h with h | h | h
          · exact absurd h h1
          · exact absurd h h2
          · exact absurd h h3
  · intro beaconImage validatorImage hs hb hv
    have h0 : (Split delimitedImagesStr ',').getD 0 "" = beaconImage := by rw [hs]; rfl
    have h1 : (Split delimitedImagesStr ',').getD 1 "" = validatorImage := by rw [hs]; rfl
    have hl : (Split delimitedImagesStr ',').length = 2 := by rw [hs]; rfl
    refine ⟨?_, ?_⟩
    · intro err he
      unfold Launch
      simp only [imageSeparatorDelimiter, expectedNumImages, length_eq_zero_iff, h0, h1, hl, he,
        hb, hv, ne_eq, not_true_eq_false, if_false]
      exact ⟨_, rfl⟩
    · intro logLevel he
      unfold Launch
      simp only [imageSeparatorDelimiter, expectedNumImages, length_eq_zero_iff, h0, h1, hl, he,
        hb, hv, ne_eq, not_true_eq_false, if_false, beaconNodeServiceId_eq]
      repeat' split
      all_goals exact ⟨_, _, rfl⟩

/-- Witness of C1 in the simulated world: the single image `beacon:latest` is rejected with
no call made, and the pair `beacon:latest,validator:latest` passes the check and reaches the
beacon launch. -/
theorem Launch_image_check_witness :
    ((Split "beacon:latest" ',').length ≠ 2 ∧
      (∃ msg, (Sim.launch "beacon:latest" none [] [] Sim.calm).result =
        .error (.newError msg)) ∧
      (Sim.launch "beacon:latest" none [] [] Sim.calm).trace = [] ∧
      (Sim.launch "beacon:latest" none [] [] Sim.calm).world = Sim.calm) ∧
    (Split "beacon:latest,validator:latest" ',' = ["beacon:latest", "validator:latest"] ∧
      ∃ answer rest,
        (Sim.launch "beacon:latest,validator:latest" none [] [] Sim.calm).trace =
          .addService "cl-0-beacon"
            (getBeaconContainerConfigSupplier Sim.env "beacon:latest" none Sim.elCtx "info"
              "/genesis/config.yaml" "/genesis/genesis.ssz" []) answer :: rest) :=
  ⟨⟨by decide,
      (Launch_image_check Sim.env Sim.launcher "cl-0" "beacon:latest" "" .Info none Sim.elCtx
        Sim.keystores [] [] Sim.calm).1 (Or.inl (by decide))⟩,
    ⟨by decide,
      ((Launch_image_check Sim.env Sim.launcher "cl-0" "beacon:latest,validator:latest" ""
        .Info none Sim.elCtx Sim.keystores [] [] Sim.calm).2 "beacon:latest" "validator:latest"
        (by decide) (by decide) (by decide)).2 "info" (by decide)⟩⟩

/-- The beacon RPC endpoint `A:4000`, as `fmt.Sprintf("%v:%v", A, rpcPortNum)` makes it. -/
theorem beaconRPCEndpoint_eq (address : String) :
    address ++ ":" ++ fmtNat rpcPortNum = address ++ ":4000" := by
  rw [String.append_assoc]; rfl

/-- The beacon HTTP endpoint `A:3500`. -/
theorem beaconHTTPEndpoint_eq (address : String) :
    address ++ ":" ++ fmtNat httpPortNum = address ++ ":3500" := by
  rw [String.append_assoc]; rfl

/-- The shape of a run of `Launch`: its trace is a prefix of
beacon launch, health wait, identity fetch, validator launch, each call but the last having
succeeded, and the run returns a context only after all four. -/
theorem Launch_shape {σ : Type} (env : Collaborators σ) (launcher : PrysmCLClientLauncher)
    (serviceId delimitedImagesStr participantLogLevel : String)
    (globalLogLevel : GlobalClientLogLevel) (bootnodeContext : Option CLClientContext)
    (elClientContext : ELClientContext) (nodeKeystoreDirpaths : NodeTypeKeystoreDirpaths)
    (extraBeaconParams extraValidatorParams : List String) (w : σ)
    (out : Outcome σ CLClientContext (LaunchCall σ))
    (hout : Launch env launcher serviceId delimitedImagesStr participantLogLevel globalLogLevel
      bootnodeContext elClientContext nodeKeystoreDirpaths extraBeaconParams
      extraValidatorParams w = out) :
    (out.trace = [] ∧ out.world = w ∧ ∃ e, out.result = .error e) ∨
    ∃ logLevel,
      env.getClientLogLevelStrOrDefault participantLogLevel globalLogLevel prysmLogLevels =
        .ok logLevel ∧
      (Split delimitedImagesStr ',').length = 2 ∧
      TrimSpace ((Split delimitedImagesStr ',').getD 0 "") ≠ "" ∧
      TrimSpace ((Split delimitedImagesStr ',').getD 1 "") ≠ "" ∧
      ((∃ e, out.trace = [beaconLaunchCall env launcher serviceId
            ((Split delimitedImagesStr ',').getD 0 "") logLevel bootnodeContext elClientContext
            extraBeaconParams (.error e)] ∧ ∃ e1, out.result = .error e1) ∨
       ∃ bctx,
        (out.trace = [beaconLaunchCall env launcher serviceId
            ((Split delimitedImagesStr ',').getD 0 "") logLevel bootnodeContext elClientContext
            extraBeaconParams (.ok bctx)] ∧ ∃ e1, out.result = .error e1) ∨
        ∃ httpPort, bctx.privatePorts.lookup "http" = some httpPort ∧
         ((∃ e, out.trace = [beaconLaunchCall env launcher serviceId
              ((Split delimitedImagesStr ',').getD 0 "") logLevel bootnodeContext elClientContext
              extraBeaconParams (.ok bctx), healthWaitCall bctx httpPort (some e)] ∧
            ∃ e1, out.result = .error e1) ∨
          (∃ e, out.trace = [beaconLaunchCall env launcher serviceId
              ((Split delimitedImagesStr ',').getD 0 "") logLevel bootnodeContext elClientContext
              extraBeaconParams (.ok bctx), healthWaitCall bctx httpPort none,
              identityCall bctx httpPort (.error e)] ∧
            ∃ e1, out.result = .error e1) ∨
          ∃ identity,
           (∃ e, out.trace = [beaconLaunchCall env launcher serviceId
              ((Split delimitedImagesStr ',').getD 0 "") logLevel bootnodeContext elClientContext
              extraBeaconParams (.ok bctx), healthWaitCall bctx httpPort none,
              identityCall bctx httpPort (.ok identity),
              validatorLaunchCall env launcher serviceId
                ((Split delimitedImagesStr ',').getD 1 "") logLevel bctx nodeKeystoreDirpaths
                extraValidatorParams (.error e)] ∧
            ∃ e1, out.result = .error e1) ∨
           ∃ vctx,
            out.trace = [beaconLaunchCall env launcher serviceId
              ((Split delimitedImagesStr ',').getD 0 "") logLevel bootnodeContext elClientContext
              extraBeaconParams (.ok bctx), healthWaitCall bctx httpPort none,
              identityCall bctx httpPort (.ok identity),
              validatorLaunchCall env launcher serviceId
                ((Split delimitedImagesStr ',').getD 1 "") logLevel bctx nodeKeystoreDirpaths
                extraValidatorParams (.ok vctx)] ∧
            ((∃ e1, out.result = .error e1) ∨
             ∃ beaconMonitoringPort validatorMonitoringPort,
              bctx.privatePorts.lookup "monitoring" = some beaconMonitoringPort ∧
              vctx.privatePorts.lookup "monitoring" = some validatorMonitoringPort ∧
              out.result = .ok
                { enr := identity.ENR
                  ipAddr := bctx.privateIPAddress
                  httpPortNum := 3500
                  nodesMetricsInfo :=
                    [⟨serviceId ++ "-beacon", "/metrics",
                      bctx.privateIPAddress ++ ":" ++ fmtNat beaconMonitoringPort.number⟩,
                     ⟨serviceId ++ "-validator", "/metrics",
                      vctx.privateIPAddress ++ ":" ++ fmtNat validatorMonitoringPort.number⟩]
                  restClient := ⟨bctx.privateIPAddress, httpPort.number⟩ }))) := by
  simp only [beaconLaunchCall, healthWaitCall, identityCall, validatorLaunchCall,
    ← beaconNodeServiceId_eq, ← validatorNodeServiceId_eq, ← beaconRPCEndpoint_eq,
    ← beaconHTTPEndpoint_eq]
  unfold Launch at hout
  simp only [imageSeparatorDelimiter, expectedNumImages, length_eq_zero_iff] at hout
  split at hout
  · subst hout; exact Or.inl ⟨rfl, rfl, _, rfl⟩
  split at hout
  · subst hout; exact Or.inl ⟨rfl, rfl, _, rfl⟩
  split at hout
  · subst hout; exact Or.inl ⟨rfl, rfl, _, rfl⟩
  rename_i hlen hb hv
  split at hout
  · subst hout; exact Or.inl ⟨rfl, rfl, _, rfl⟩
  rename_i logLevel hlevel
  refine Or.inr ⟨logLevel, hlevel, not_not.mp hlen, hb, hv, ?_⟩
  split at hout
  · subst hout; exact Or.inl ⟨_, rfl, _, rfl⟩
  rename_i bctx w1 hbeacon
  refine Or.inr ⟨bctx, ?_⟩
  split at hout
  · subst hout; exact Or.inl ⟨rfl, _, rfl⟩
  rename_i httpPort hhttp
  refine Or.inr ⟨httpPort, hhttp, ?_⟩
  split at hout
  · subst hout; exact Or.inl ⟨_, rfl, _, rfl⟩
  split at hout
  · subst hout; exact Or.inr (Or.inl ⟨_, rfl, _, rfl⟩)
  rename_i identity w3 hidentity
  refine Or.inr (Or.inr ⟨identity, ?_⟩)
  split at hout
  · subst hout; exact Or.inl ⟨_, rfl, _, rfl⟩
  rename_i vctx w4 hvalidator
  refine Or.inr ⟨vctx, ?_⟩
  split at hout
  · subst hout; exact ⟨rfl, Or.inl ⟨_, rfl⟩⟩
  rename_i bm hbm
  split at hout
  · subst hout; exact ⟨rfl, Or.inl ⟨_, rfl⟩⟩
  rename_i vm hvm
  subst hout
  exact ⟨rfl, Or.inr ⟨bm, vm, hbm, hvm, rfl⟩⟩

end Prysm

namespace Prysm

/-- The beacon and the validator service ids of one participant differ. -/
theorem beacon_id_ne_validator_id (serviceId : String) :
    serviceId ++ "-beacon" ≠ serviceId ++ "-validator" := by
  intro h
  have h1 := congrArg String.data h
  rw [String.data_append, String.data_append] at h1
  have h2 := List.append_cancel_left h1
  exact absurd h2 (by decide)

/-- Where an element can sit in a list of one element. -/
theorem split_one {α : Type} {a x : α} {pre post : List α} (h : [a] = pre ++ x :: post) :
    pre = [] ∧ x = a := by
  rcases pre with _ | ⟨p1, pre⟩
  · simp only [List.nil_append, List.cons.injEq] at h
    exact ⟨rfl, h.1.symm⟩
  · rcases pre with _ | ⟨p2, pre⟩ <;> simp at h

/-- Where an element can sit in a list of two elements. -/
theorem split_two {α : Type} {a b x : α} {pre post : List α} (h : [a, b] = pre ++ x :: post) :
    (pre = [] ∧ x = a) ∨ (pre = [a] ∧ x = b) := by
  rcases pre with _ | ⟨p1, pre⟩
  · simp only [List.nil_append, List.cons.injEq] at h
    exact Or.inl ⟨rfl, h.1.symm⟩
  · simp only [List.cons_append, List.cons.injEq] at h
    obtain ⟨rfl, h⟩ := h
    obtain ⟨rfl, rfl⟩ := split_one h
    exact Or.inr ⟨rfl, rfl⟩

/-- Where an element can sit in a list of three elements. -/
theorem split_three {α : Type} {a b c x : α} {pre post : List α}
    (h : [a, b, c] = pre ++ x :: post) :
    (pre = [] ∧ x = a) ∨ (pre = [a] ∧ x = b) ∨ (pre = [a, b] ∧ x = c) := by
  rcases pre with _ | ⟨p1, pre⟩
  · simp only [List.nil_append, List.cons.injEq] at h
    exact Or.inl ⟨rfl, h.1.symm⟩
  · simp only [List.cons_append, List.cons.injEq] at h
    obtain ⟨rfl, h⟩ := h
    rcases split_two h with ⟨rfl, rfl⟩ | ⟨rfl, rfl⟩
    · exact Or.inr (Or.inl ⟨rfl, rfl⟩)
    · exact Or.inr (Or.inr ⟨rfl, rfl⟩)

/-- Where an element can sit in a list of four elements. -/
theorem split_four {α : Type} {a b c d x : α} {pre post : List α}
    (h : [a, b, c, d] = pre ++ x :: post) :
    (pre = [] ∧ x = a) ∨ (pre = [a] ∧ x = b) ∨ (pre = [a, b] ∧ x = c) ∨
      (pre = [a, b, c] ∧ x = d) := by
  rcases pre with _ | ⟨p1, pre⟩
  · simp only [List.nil_append, List.cons.injEq] at h
    exact Or.inl ⟨rfl, h.1.symm⟩
  · simp only [List.cons_append, List.cons.injEq] at h
    obtain ⟨rfl, h⟩ := h
    rcases split_three h with ⟨rfl, rfl⟩ | ⟨rfl, rfl⟩ | ⟨rfl, rfl⟩
    · exact Or.inr (Or.inl ⟨rfl, rfl⟩)
    · exact Or.inr (Or.inr (Or.inl ⟨rfl, rfl⟩))
    · exact Or.inr (Or.inr (Or.inr ⟨rfl, rfl⟩))

/-- An `AddService` call for `S-validator` is not one for `S-beacon`. -/
theorem validator_call_ne_beacon_call {σ : Type} (serviceId : String)
    (supplier beaconSupplier : Supplier σ) (answer beaconAnswer : Except StackErr ServiceContext) :
    LaunchCall.addService (serviceId ++ "-validator") supplier answer ≠
      LaunchCall.addService (serviceId ++ "-beacon") beaconSupplier beaconAnswer := by
  intro h
  injection h with h1 _ _
  exact beacon_id_ne_validator_id serviceId h1.symm

/-- C2: in every run of `Launch`, an `AddService` call for the validator service `S-validator`
is preceded by exactly the successful launch of the beacon service `S-beacon`, the successful
health wait (100 polls at most, 5 s apart) and the successful identity fetch, in this order;
and in every run whose health wait fails, `Launch` returns an error and the trace is the beacon
launch followed by the failed wait, so the runtime received exactly one `AddService` call, the
one for the beacon service. -/
theorem Launch_validator_after_beacon {σ : Type} (env : Collaborators σ)
    (launcher : PrysmCLClientLauncher)
    (serviceId delimitedImagesStr participantLogLevel : String)
    (globalLogLevel : GlobalClientLogLevel) (bootnodeContext : Option CLClientContext)
    (elClientContext : ELClientContext) (nodeKeystoreDirpaths : NodeTypeKeystoreDirpaths)
    (extraBeaconParams extraValidatorParams : List String) (w : σ) :
    (∀ pre supplier answer post,
      (Launch env launcher serviceId delimitedImagesStr participantLogLevel globalLogLevel
        bootnodeContext elClientContext nodeKeystoreDirpaths extraBeaconParams
        extraValidatorParams w).trace =
        pre ++ LaunchCall.addService (serviceId ++ "-validator") supplier answer :: post →
      ∃ beaconSupplier beaconServiceCtx restClient identity,
        pre = [.addService (serviceId ++ "-beacon") beaconSupplier (.ok beaconServiceCtx),
               .waitForBeaconClientAvailability restClient 100 5000000000 none,
               .getNodeIdentity restClient (.ok identity)]) ∧
    (∀ pre restClient numRetries interval err post,
      (Launch env launcher serviceId delimitedImagesStr participantLogLevel globalLogLevel
        bootnodeContext elClientContext nodeKeystoreDirpaths extraBeaconParams
        extraValidatorParams w).trace =
        pre ++ LaunchCall.waitForBeaconClientAvailability restClient numRetries interval
          (some err) :: post →
      (∃ e, (Launch env launcher serviceId delimitedImagesStr participantLogLevel
        globalLogLevel bootnodeContext elClientContext nodeKeystoreDirpaths extraBeaconParams
        extraValidatorParams w).result = .error e) ∧
      (∃ beaconSupplier beaconServiceCtx,
        (Launch env launcher serviceId delimitedImagesStr participantLogLevel globalLogLevel
          bootnodeContext elClientContext nodeKeystoreDirpaths extraBeaconParams
          extraValidatorParams w).trace =
          [.addService (serviceId ++ "-beacon") beaconSupplier (.ok beaconServiceCtx),
           .waitForBeaconClientAvailability restClient numRetries interval (some err)]) ∧
      ((Launch env launcher serviceId delimitedImagesStr participantLogLevel globalLogLevel
          bootnodeContext elClientContext nodeKeystoreDirpaths extraBeaconParams
          extraValidatorParams w).trace.filter LaunchCall.isAddService).length = 1) := by
  obtain h | ⟨logLevel, -, -, -, -, h⟩ := Launch_shape env launcher serviceId delimitedImagesStr
    participantLogLevel globalLogLevel bootnodeContext elClientContext nodeKeystoreDirpaths
    extraBeaconParams extraValidatorParams w _ rfl
  · obtain ⟨ht, -, -⟩ := h
    rw [ht]
    constructor
    · intro pre supplier answer post hp
      exact absurd (congrArg List.length hp) (by simp; omega)
    · intro pre restClient numRetries interval err post hp
      exact absurd (congrArg List.length hp) (by simp; omega)
  · simp only [beaconLaunchCall, healthWaitCall, identityCall, validatorLaunchCall] at h
    obtain ⟨e, ht, -⟩ | ⟨bctx, ⟨ht, -⟩ | ⟨httpPort, -, ⟨e, ht, hr⟩ | ⟨e, ht, -⟩ |
      ⟨identity, ⟨e, ht, -⟩ | ⟨vctx, ht, -⟩⟩⟩⟩ := h
    · rw [ht]
      constructor
      · intro pre supplier answer post hp
        obtain ⟨-, hx⟩ := split_one hp
        exact absurd hx (validator_call_ne_beacon_call _ _ _ _ _)
      · intro pre restClient numRetries interval err post hp
        obtain ⟨-, hx⟩ := split_one hp
        cases hx
    · rw [ht]
      constructor
      · intro pre supplier answer post hp
        obtain ⟨-, hx⟩ := split_one hp
        exact absurd hx (validator_call_ne_beacon_call _ _ _ _ _)
      · intro pre restClient numRetries interval err post hp
        obtain ⟨-, hx⟩ := split_one hp
        cases hx
    · rw [ht]
      constructor
      · intro pre supplier answer post hp
        obtain ⟨-, hx⟩ | ⟨-, hx⟩ := split_two hp
        · exact absurd hx (validator_call_ne_beacon_call _ _ _ _ _)
        · cases hx
      · intro pre restClient numRetries interval err post hp
        obtain ⟨-, hx⟩ | ⟨-, hx⟩ := split_two hp
        · cases hx
        · injection hx with h1 h2 h3 h4
          subst h1 h2 h3
          injection h4 with h4
          subst h4
          exact ⟨hr, ⟨_, _, rfl⟩, rfl⟩
    · rw [ht]
      constructor
      · intro pre supplier answer post hp
        obtain ⟨-, hx⟩ | ⟨-, hx⟩ | ⟨-, hx⟩ := split_three hp
        · exact absurd hx (validator_call_ne_beacon_call _ _ _ _ _)
        · cases hx
        · cases hx
      · intro pre restClient numRetries interval err post hp
        obtain ⟨-, hx⟩ | ⟨-, hx⟩ | ⟨-, hx⟩ := split_three hp
        · cases hx
        · cases hx
        · cases hx
    · rw [ht]
      constructor
      · intro pre supplier answer post hp
        obtain ⟨-, hx⟩ | ⟨-, hx⟩ | ⟨-, hx⟩ | ⟨hpre, -⟩ := split_four hp
        · exact absurd hx (validator_call_ne_beacon_call _ _ _ _ _)
        · cases hx
        · cases hx
        · exact ⟨_, _, _, _, hpre⟩
      · intro pre restClient numRetries interval err post hp
        obtain ⟨-, hx⟩ | ⟨-, hx⟩ | ⟨-, hx⟩ | ⟨-, hx⟩ := split_four hp
        · cases hx
        · cases hx
        · cases hx
        · cases hx
    · rw [ht]
      constructor
      · intro pre supplier answer post hp
        obtain ⟨-, hx⟩ | ⟨-, hx⟩ | ⟨-, hx⟩ | ⟨hpre, -⟩ := split_four hp
        · exact absurd hx (validator_call_ne_beacon_call _ _ _ _ _)
        · cases hx
        · cases hx
        · exact ⟨_, _, _, _, hpre⟩
      · intro pre restClient numRetries interval err post hp
        obtain ⟨-, hx⟩ | ⟨-, hx⟩ | ⟨-, hx⟩ | ⟨-, hx⟩ := split_four hp
        · cases hx
        · cases hx
        · cases hx
        · cases hx

/-- Witness of C2 in the simulated world: in the calm run the validator launch is the fourth
call, after the beacon launch, the wait and the identity fetch; in the run whose health wait
fails the trace is the beacon launch and the failed wait. -/
theorem Launch_validator_after_beacon_witness :
    (∃ beaconSupplier beaconServiceCtx restClient identity,
      (Sim.launch "beacon:latest,validator:latest" none [] [] Sim.calm).trace.take 3 =
        [.addService ("cl-0" ++ "-beacon") beaconSupplier (.ok beaconServiceCtx),
         .waitForBeaconClientAvailability restClient 100 5000000000 none,
         .getNodeIdentity restClient (.ok identity)]) ∧
    ((∃ e, (Sim.launch "beacon:latest,validator:latest" none [] []
        (Sim.failingAt ["wait"])).result = .error e) ∧
      (∃ beaconSupplier beaconServiceCtx,
        (Sim.launch "beacon:latest,validator:latest" none [] [] (Sim.failingAt ["wait"])).trace =
          [.addService ("cl-0" ++ "-beacon") beaconSupplier (.ok beaconServiceCtx),
           .waitForBeaconClientAvailability ⟨"10.0.0.5", 3500⟩ 100 5000000000
             (some (.external "failed: wait"))]) ∧
      ((Sim.launch "beacon:latest,validator:latest" none [] []
        (Sim.failingAt ["wait"])).trace.filter LaunchCall.isAddService).length = 1) :=
  ⟨(Launch_validator_after_beacon Sim.env Sim.launcher "cl-0" "beacon:latest,validator:latest"
      "" .Info none Sim.elCtx Sim.keystores [] [] Sim.calm).1
      ((Sim.launch "beacon:latest,validator:latest" none [] [] Sim.calm).trace.take 3)
      (getValidatorContainerConfigSupplier Sim.env Sim.launcher "validator:latest"
        "cl-0-validator" "info" "10.0.0.5:4000" "10.0.0.5:3500" "/keys/raw" "/keys/prysm" [])
      (.ok ⟨"cl-0-validator", ⟨"/module/cl-0-validator", "/shared"⟩, "10.0.0.6",
        validatorNodeUsedPorts⟩) [] rfl,
    (Launch_validator_after_beacon Sim.env Sim.launcher "cl-0" "beacon:latest,validator:latest"
      "" .Info none Sim.elCtx Sim.keystores [] [] (Sim.failingAt ["wait"])).2
      ((Sim.launch "beacon:latest,validator:latest" none [] [] (Sim.failingAt ["wait"])).trace.take
        1)
      ⟨"10.0.0.5", 3500⟩ 100 5000000000 (.external "failed: wait") [] rfl⟩

end Prysm

namespace Prysm

/-- An argument `p ++ x` does not begin with `q` when neither of the texts `p` and `q` begins
with the other. -/
theorem not_beginsWith_append (p q x : String) (h1 : ¬ q.data <+: p.data)
    (h2 : ¬ p.data <+: q.data) : ¬ beginsWith (p ++ x) q := by
  intro h
  unfold beginsWith at h
  rw [String.data_append] at h
  rcases List.prefix_or_prefix_of_prefix h (List.prefix_append p.data x.data) with h3 | h3
  · exact h1 h3
  · exact h2 h3

/-- Counterexample to C3 as stated: with no bootnode context and the extra param
`--bootstrap-node=enr:abc`, the beacon launch spec has an argument beginning with
`--bootstrap-node`. -/
theorem beacon_bootstrap_flag_from_extra_params :
    getBeaconContainerConfigSupplier Sim.env "beacon:latest" none Sim.elCtx "info"
        "/genesis/config.yaml" "/genesis/genesis.ssz" ["--bootstrap-node=enr:abc"]
        "10.0.0.5" Sim.beaconDir Sim.calm =
      (.ok (Sim.beaconSpec none ["--bootstrap-node=enr:abc"]), Sim.calm) ∧
    "--bootstrap-node=enr:abc" ∈ (Sim.beaconSpec none ["--bootstrap-node=enr:abc"]).cmdOverride ∧
    beginsWith "--bootstrap-node=enr:abc" "--bootstrap-node" := by
  decide

/-- C3, amended: when the bootnode context is absent, every argument of the beacon launch spec
that begins with `--bootstrap-node` is one of the caller's extra params; so the argument list
has no such argument when no extra param begins with `--bootstrap-node`. -/
theorem beacon_no_bootstrap_flag_when_absent {σ : Type} (env : Collaborators σ)
    (beaconImage : String) (elClientContext : ELClientContext) (logLevel : String)
    (genesisConfigYmlFilepathOnModuleContainer genesisSszFilepathOnModuleContainer : String)
    (extraParams : List String) (privateIpAddr : String) (sharedDir : SharedPath) (w w1 : σ)
    (cfg : ContainerConfig)
    (h : getBeaconContainerConfigSupplier env beaconImage none elClientContext logLevel
      genesisConfigYmlFilepathOnModuleContainer genesisSszFilepathOnModuleContainer extraParams
      privateIpAddr sharedDir w = (.ok cfg, w1)) :
    (∀ a ∈ cfg.cmdOverride, beginsWith a "--bootstrap-node" → a ∈ extraParams) ∧
    ((∀ a ∈ extraParams, ¬ beginsWith a "--bootstrap-node") →
      ∀ a ∈ cfg.cmdOverride, ¬ beginsWith a "--bootstrap-node") := by
  have key : ∀ a ∈ cfg.cmdOverride, beginsWith a "--bootstrap-node" → a ∈ extraParams := by
    unfold getBeaconContainerConfigSupplier at h
    simp only [] at h
    split at h
    · cases h
    split at h
    · cases h
    injection h with h _
    injection h with h
    subst h
    intro a ha hb
    simp only [] at ha
    split at ha
    · rw [List.mem_append] at ha
      rcases ha with ha | ha
      · simp only [List.mem_cons, List.mem_singleton, List.not_mem_nil, or_false] at ha
        exfalso
        rcases ha with rfl | rfl | rfl | rfl | rfl | rfl | rfl | rfl | rfl | rfl | rfl | rfl |
          rfl | rfl | rfl | rfl | rfl | rfl | rfl | rfl | rfl | rfl
        all_goals
          first
          | exact absurd hb (by decide)
          | exact absurd hb (not_beginsWith_append _ _ _ (by decide) (by decide))
      · exact ha
    · simp only [List.mem_cons, List.mem_singleton, List.not_mem_nil, or_false] at ha
      exfalso
      rcases ha with rfl | rfl | rfl | rfl | rfl | rfl | rfl | rfl | rfl | rfl | rfl | rfl |
        rfl | rfl | rfl | rfl | rfl | rfl | rfl | rfl | rfl | rfl
      all_goals
        first
        | exact absurd hb (by decide)
        | exact absurd hb (not_beginsWith_append _ _ _ (by decide) (by decide))
  exact ⟨key, fun hx a ha hb => hx a (key a ha hb) hb⟩

/-- Witness of the amended C3 in the simulated world, with the extra param
`--min-sync-peers=0`. -/
theorem beacon_no_bootstrap_flag_when_absent_witness :
    (∀ a ∈ ["--min-sync-peers=0"], ¬ beginsWith a "--bootstrap-node") ∧
    ∀ a ∈ (Sim.beaconSpec none ["--min-sync-peers=0"]).cmdOverride,
      ¬ beginsWith a "--bootstrap-node" :=
  ⟨by decide,
    (beacon_no_bootstrap_flag_when_absent Sim.env "beacon:latest" Sim.elCtx "info"
      "/genesis/config.yaml" "/genesis/genesis.ssz" ["--min-sync-peers=0"] "10.0.0.5"
      Sim.beaconDir Sim.calm Sim.calm (Sim.beaconSpec none ["--min-sync-peers=0"])
      (by decide)).2 (by decide)⟩

/-- Appending the extra params as the suppliers do, only when there are some, is plain
appending. -/
theorem append_extra_params (cmdArgs extraParams : List String) :
    (if extraParams.length > 0 then cmdArgs ++ extraParams else cmdArgs) =
      cmdArgs ++ extraParams := by
  cases extraParams with
  | nil => simp
  | cons x xs => simp

/-- C4: when a bootnode context is present, the argument list of the beacon launch spec is the
fixed generated flags (the 22 arguments the same builder makes with no bootnode context and no
extra params), then the single argument `--bootstrap-node=` followed by the context's ENR as it
is, then the extra params; in particular that argument is in the list. -/
theorem beacon_bootstrap_flag_when_present {σ : Type} (env : Collaborators σ)
    (beaconImage : String) (bootnodeContext : CLClientContext)
    (elClientContext : ELClientContext) (logLevel : String)
    (genesisConfigYmlFilepathOnModuleContainer genesisSszFilepathOnModuleContainer : String)
    (extraParams : List String) (privateIpAddr : String) (sharedDir : SharedPath) (w w1 : σ)
    (cfg : ContainerConfig)
    (h : getBeaconContainerConfigSupplier env beaconImage (some bootnodeContext) elClientContext
      logLevel genesisConfigYmlFilepathOnModuleContainer genesisSszFilepathOnModuleContainer
      extraParams privateIpAddr sharedDir w = (.ok cfg, w1)) :
    ∃ fixed,
      getBeaconContainerConfigSupplier env beaconImage none elClientContext logLevel
        genesisConfigYmlFilepathOnModuleContainer genesisSszFilepathOnModuleContainer []
        privateIpAddr sharedDir w = (.ok fixed, w1) ∧
      fixed.cmdOverride.length = 22 ∧
      cfg.cmdOverride =
        fixed.cmdOverride ++ ["--bootstrap-node=" ++ bootnodeContext.GetENR] ++ extraParams ∧
      "--bootstrap-node=" ++ bootnodeContext.GetENR ∈ cfg.cmdOverride := by
  unfold getBeaconContainerConfigSupplier at h ⊢
  simp only [append_extra_params] at h ⊢
  split at h
  · cases h
  split at h
  · cases h
  injection h with h hw
  injection h with h
  subst h hw
  refine ⟨_, rfl, rfl, ?_, ?_⟩
  · simp only [List.append_nil]
  · simp only [List.mem_append, List.mem_singleton, or_true, true_or]

/-- Witness of C4 in the simulated world, with the bootnode `enr:boot` and the extra param
`--min-sync-peers=0`. -/
theorem beacon_bootstrap_flag_when_present_witness :
    ∃ fixed,
      Sim.beaconSupplier none [] "10.0.0.5" Sim.beaconDir Sim.calm = (.ok fixed, Sim.calm) ∧
      fixed.cmdOverride.length = 22 ∧
      (Sim.beaconSpec (some Sim.bootnode) ["--min-sync-peers=0"]).cmdOverride =
        fixed.cmdOverride ++ ["--bootstrap-node=" ++ "enr:boot"] ++ ["--min-sync-peers=0"] ∧
      "--bootstrap-node=" ++ "enr:boot" ∈
        (Sim.beaconSpec (some Sim.bootnode) ["--min-sync-peers=0"]).cmdOverride :=
  beacon_bootstrap_flag_when_present Sim.env "beacon:latest" Sim.bootnode Sim.elCtx "info"
    "/genesis/config.yaml" "/genesis/genesis.ssz" ["--min-sync-peers=0"] "10.0.0.5"
    Sim.beaconDir Sim.calm Sim.calm (Sim.beaconSpec (some Sim.bootnode) ["--min-sync-peers=0"])
    (by decide)

/-- C5: the argument list of the validator launch spec includes `--beacon-rpc-provider=`
followed by the beacon RPC endpoint passed in and `--beacon-rpc-gateway-provider=` followed by
the beacon HTTP endpoint passed in, both as they are. -/
theorem validator_args_include_beacon_endpoints {σ : Type} (env : Collaborators σ)
    (launcher : PrysmCLClientLauncher) (validatorImage serviceId logLevel : String)
    (beaconRPCEndpoint beaconHTTPEndpoint : String)
    (validatorKeysDirpathOnModuleContainer validatorSecretsDirpathOnModuleContainer : String)
    (extraParams : List String) (privateIpAddr : String) (sharedDir : SharedPath) (w w1 : σ)
    (cfg : ContainerConfig)
    (h : getValidatorContainerConfigSupplier env launcher validatorImage serviceId logLevel
      beaconRPCEndpoint beaconHTTPEndpoint validatorKeysDirpathOnModuleContainer
      validatorSecretsDirpathOnModuleContainer extraParams privateIpAddr sharedDir w =
        (.ok cfg, w1)) :
    "--beacon-rpc-provider=" ++ beaconRPCEndpoint ∈ cfg.cmdOverride ∧
    "--beacon-rpc-gateway-provider=" ++ beaconHTTPEndpoint ∈ cfg.cmdOverride := by
  unfold getValidatorContainerConfigSupplier at h
  simp only [append_extra_params] at h
  split at h
  · cases h
  split at h
  · cases h
  split at h
  · cases h
  split at h
  · cases h
  injection h with h hw
  injection h with h
  subst h
  constructor <;>
    simp only [List.mem_append, List.mem_cons, true_or, or_true]

/-- Witness of C5 in the simulated world, with the endpoints `10.0.0.5:4000` and
`10.0.0.5:3500`. -/
theorem validator_args_include_beacon_endpoints_witness :
    "--beacon-rpc-provider=" ++ "10.0.0.5:4000" ∈ (Sim.validatorSpec []).cmdOverride ∧
    "--beacon-rpc-gateway-provider=" ++ "10.0.0.5:3500" ∈ (Sim.validatorSpec []).cmdOverride :=
  validator_args_include_beacon_endpoints Sim.env Sim.launcher "validator:latest"
    "cl-0-validator" "info" "10.0.0.5:4000" "10.0.0.5:3500" "/keys/raw" "/keys/prysm" []
    "10.0.0.6" Sim.validatorDir Sim.calm Sim.calm (Sim.validatorSpec []) (by decide)

/-- C6: for the beacon and for the validator builder and every list of extra params, the
argument list is the generated flags (the arguments the same builder makes with no extra
params) followed by the extra params as they are, in order, with nothing after them; with no
extra params it is the generated flags. -/
theorem extra_params_appended_verbatim {σ : Type} (env : Collaborators σ)
    (extraParams : List String) (privateIpAddr : String) (sharedDir : SharedPath) (w w1 : σ)
    (cfg : ContainerConfig) :
    (∀ (beaconImage : String) (bootnodeContext : Option CLClientContext)
        (elClientContext : ELClientContext) (logLevel : String)
        (genesisConfigYmlFilepathOnModuleContainer genesisSszFilepathOnModuleContainer : String),
      getBeaconContainerConfigSupplier env beaconImage bootnodeContext elClientContext logLevel
        genesisConfigYmlFilepathOnModuleContainer genesisSszFilepathOnModuleContainer
        extraParams privateIpAddr sharedDir w = (.ok cfg, w1) →
      ∃ generated,
        getBeaconContainerConfigSupplier env beaconImage bootnodeContext elClientContext
          logLevel genesisConfigYmlFilepathOnModuleContainer
          genesisSszFilepathOnModuleContainer [] privateIpAddr sharedDir w =
            (.ok generated, w1) ∧
        cfg.cmdOverride = generated.cmdOverride ++ extraParams ∧
        (extraParams = [] → cfg.cmdOverride = generated.cmdOverride)) ∧
    (∀ (launcher : PrysmCLClientLauncher) (validatorImage serviceId logLevel : String)
        (beaconRPCEndpoint beaconHTTPEndpoint : String)
        (validatorKeysDirpathOnModuleContainer : String)
        (validatorSecretsDirpathOnModuleContainer : String),
      getValidatorContainerConfigSupplier env launcher validatorImage serviceId logLevel
        beaconRPCEndpoint beaconHTTPEndpoint validatorKeysDirpathOnModuleContainer
        validatorSecretsDirpathOnModuleContainer extraParams privateIpAddr sharedDir w =
          (.ok cfg, w1) →
      ∃ generated,
        getValidatorContainerConfigSupplier env launcher validatorImage serviceId logLevel
          beaconRPCEndpoint beaconHTTPEndpoint validatorKeysDirpathOnModuleContainer
          validatorSecretsDirpathOnModuleContainer [] privateIpAddr sharedDir w =
            (.ok generated, w1) ∧
        cfg.cmdOverride = generated.cmdOverride ++ extraParams ∧
        (extraParams = [] → cfg.cmdOverride = generated.cmdOverride)) := by
  constructor
  · intro beaconImage bootnodeContext elClientContext logLevel g1 g2 h
    unfold getBeaconContainerConfigSupplier at h ⊢
    simp only [append_extra_params] at h ⊢
    split at h
    · cases h
    split at h
    · cases h
    injection h with h hw
    injection h with h
    subst h hw
    refine ⟨_, rfl, ?_, ?_⟩
    · simp only [List.append_nil]
    · intro he
      subst he
      rfl
  · intro launcher validatorImage serviceId logLevel rpc http keys secrets h
    unfold getValidatorContainerConfigSupplier at h ⊢
    simp only [append_extra_params] at h ⊢
    split at h
    · cases h
    split at h
    · cases h
    split at h
    · cases h
    split at h
    · cases h
    injection h with h hw
    injection h with h
    subst h hw
    refine ⟨_, rfl, ?_, ?_⟩
    · simp only [List.append_nil]
    · intro he
      subst he
      rfl

/-- Witness of C6 in the simulated world, with two extra params for each builder. -/
theorem extra_params_appended_verbatim_witness :
    (∃ generated,
      Sim.beaconSupplier (some Sim.bootnode) [] "10.0.0.5" Sim.beaconDir Sim.calm =
        (.ok generated, Sim.calm) ∧
      (Sim.beaconSpec (some Sim.bootnode) ["--min-sync-peers=0", "--verbosity=debug"]).cmdOverride =
        generated.cmdOverride ++ ["--min-sync-peers=0", "--verbosity=debug"]) ∧
    (∃ generated,
      Sim.validatorSupplier [] "10.0.0.6" Sim.validatorDir Sim.calm =
        (.ok generated, Sim.calm) ∧
      (Sim.validatorSpec ["--graffiti=x", "--verbosity=debug"]).cmdOverride =
        generated.cmdOverride ++ ["--graffiti=x", "--verbosity=debug"]) :=
  ⟨(((extra_params_appended_verbatim Sim.env ["--min-sync-peers=0", "--verbosity=debug"]
      "10.0.0.5" Sim.beaconDir Sim.calm Sim.calm
      (Sim.beaconSpec (some Sim.bootnode) ["--min-sync-peers=0", "--verbosity=debug"])).1
      "beacon:latest" (some Sim.bootnode) Sim.elCtx "info" "/genesis/config.yaml"
      "/genesis/genesis.ssz" (by decide)).imp fun _ hg => ⟨hg.1, hg.2.1⟩),
    (((extra_params_appended_verbatim Sim.env ["--graffiti=x", "--verbosity=debug"]
      "10.0.0.6" Sim.validatorDir Sim.calm Sim.calm
      (Sim.validatorSpec ["--graffiti=x", "--verbosity=debug"])).2
      Sim.launcher "validator:latest" "cl-0-validator" "info" "10.0.0.5:4000" "10.0.0.5:3500"
      "/keys/raw" "/keys/prysm" (by decide)).imp fun _ hg => ⟨hg.1, hg.2.1⟩)⟩

/-- C7: the argument lists of the beacon and of the validator launch spec always contain
`--accept-terms-of-use=true`, the network selector `--prater`, a data directory `--datadir=...`
(`/consensus-data` for the beacon, `/consensus-data` joined with the service id for the
validator), `--monitoring-host=` with the private address passed to the supplier,
`--monitoring-port=` with the role's monitoring port (8080 beacon, 8081 validator) and
`--verbosity=` followed by the log level string. -/
theorem mandatory_flags_present {σ : Type} (env : Collaborators σ)
    (logLevel : String) (extraParams : List String) (privateIpAddr : String)
    (sharedDir : SharedPath) (w w1 : σ) (cfg : ContainerConfig) :
    (∀ (beaconImage : String) (bootnodeContext : Option CLClientContext)
        (elClientContext : ELClientContext)
        (genesisConfigYmlFilepathOnModuleContainer genesisSszFilepathOnModuleContainer : String),
      getBeaconContainerConfigSupplier env beaconImage bootnodeContext elClientContext logLevel
        genesisConfigYmlFilepathOnModuleContainer genesisSszFilepathOnModuleContainer
        extraParams privateIpAddr sharedDir w = (.ok cfg, w1) →
      "--accept-terms-of-use=true" ∈ cfg.cmdOverride ∧
      "--prater" ∈ cfg.cmdOverride ∧
      "--datadir=/consensus-data" ∈ cfg.cmdOverride ∧
      "--monitoring-host=" ++ privateIpAddr ∈ cfg.cmdOverride ∧
      "--monitoring-port=8080" ∈ cfg.cmdOverride ∧
      "--verbosity=" ++ logLevel ∈ cfg.cmdOverride) ∧
    (∀ (launcher : PrysmCLClientLauncher) (validatorImage serviceId : String)
        (beaconRPCEndpoint beaconHTTPEndpoint : String)
        (validatorKeysDirpathOnModuleContainer : String)
        (validatorSecretsDirpathOnModuleContainer : String),
      getValidatorContainerConfigSupplier env launcher validatorImage serviceId logLevel
        beaconRPCEndpoint beaconHTTPEndpoint validatorKeysDirpathOnModuleContainer
        validatorSecretsDirpathOnModuleContainer extraParams privateIpAddr sharedDir w =
          (.ok cfg, w1) →
      "--accept-terms-of-use=true" ∈ cfg.cmdOverride ∧
      "--prater" ∈ cfg.cmdOverride ∧
      "--datadir=" ++ env.pathJoin "/consensus-data" serviceId ∈ cfg.cmdOverride ∧
      "--monitoring-host=" ++ privateIpAddr ∈ cfg.cmdOverride ∧
      "--monitoring-port=8081" ∈ cfg.cmdOverride ∧
      "--verbosity=" ++ logLevel ∈ cfg.cmdOverride) := by
  have e1 : "--datadir=" ++ consensusDataDirpathOnServiceContainer =
      "--datadir=/consensus-data" := by decide
  have e2 : "--monitoring-port=" ++ fmtNat beaconMonitoringPortNum =
      "--monitoring-port=8080" := by decide
  have e3 : "--monitoring-port=" ++ fmtNat validatorMonitoringPortNum =
      "--monitoring-port=8081" := by decide
  have e4 : consensusDataDirpathOnServiceContainer = "/consensus-data" := rfl
  constructor
  · intro beaconImage bootnodeContext elClientContext g1 g2 h
    unfold getBeaconContainerConfigSupplier at h
    simp only [append_extra_params] at h
    split at h
    · cases h
    split at h
    · cases h
    injection h with h hw
    injection h with h
    subst h
    cases bootnodeContext <;>
      simp only [e1, e2, List.mem_append, List.mem_cons, true_or, or_true, and_self]
  · intro launcher validatorImage serviceId rpc http keys secrets h
    unfold getValidatorContainerConfigSupplier at h
    simp only [append_extra_params] at h
    split at h
    · cases h
    split at h
    · cases h
    split at h
    · cases h
    split at h
    · cases h
    injection h with h hw
    injection h with h
    subst h
    simp only [e3, e4, List.mem_append, List.mem_cons, true_or, or_true, and_self]

/-- Witness of C7 in the simulated world: the mandatory flags of the two launch specs built
for the addresses `10.0.0.5` and `10.0.0.6` with log level `info`. -/
theorem mandatory_flags_present_witness :
    ("--accept-terms-of-use=true" ∈ (Sim.beaconSpec none []).cmdOverride ∧
      "--prater" ∈ (Sim.beaconSpec none []).cmdOverride ∧
      "--datadir=/consensus-data" ∈ (Sim.beaconSpec none []).cmdOverride ∧
      "--monitoring-host=" ++ "10.0.0.5" ∈ (Sim.beaconSpec none []).cmdOverride ∧
      "--monitoring-port=8080" ∈ (Sim.beaconSpec none []).cmdOverride ∧
      "--verbosity=" ++ "info" ∈ (Sim.beaconSpec none []).cmdOverride) ∧
    ("--accept-terms-of-use=true" ∈ (Sim.validatorSpec []).cmdOverride ∧
      "--prater" ∈ (Sim.validatorSpec []).cmdOverride ∧
      "--datadir=" ++ "/consensus-data/cl-0-validator" ∈ (Sim.validatorSpec []).cmdOverride ∧
      "--monitoring-host=" ++ "10.0.0.6" ∈ (Sim.validatorSpec []).cmdOverride ∧
      "--monitoring-port=8081" ∈ (Sim.validatorSpec []).cmdOverride ∧
      "--verbosity=" ++ "info" ∈ (Sim.validatorSpec []).cmdOverride) :=
  ⟨(mandatory_flags_present Sim.env "info" [] "10.0.0.5" Sim.beaconDir Sim.calm Sim.calm
      (Sim.beaconSpec none [])).1 "beacon:latest" none Sim.elCtx "/genesis/config.yaml"
      "/genesis/genesis.ssz" (by decide),
    (mandatory_flags_present Sim.env "info" [] "10.0.0.6" Sim.validatorDir Sim.calm Sim.calm
      (Sim.validatorSpec [])).2 Sim.launcher "validator:latest" "cl-0-validator"
      "10.0.0.5:4000" "10.0.0.5:3500" "/keys/raw" "/keys/prysm" (by decide)⟩

end Prysm

namespace Prysm

/-- C8: when `Launch` for service id `S` returns a context, the run made exactly the four calls
beacon launch, health wait, identity fetch and validator launch, all successful, and the
context carries the ENR of the fetched identity, the private address of the beacon service,
the HTTP port 3500 and exactly two metrics descriptors, beacon then validator: names `S-beacon`
and `S-validator`, path `/metrics`, and as URL the private address of that service, a colon
and the number of the port that service reports under the id `monitoring`. -/
theorem Launch_success_context {σ : Type} (env : Collaborators σ)
    (launcher : PrysmCLClientLauncher)
    (serviceId delimitedImagesStr participantLogLevel : String)
    (globalLogLevel : GlobalClientLogLevel) (bootnodeContext : Option CLClientContext)
    (elClientContext : ELClientContext) (nodeKeystoreDirpaths : NodeTypeKeystoreDirpaths)
    (extraBeaconParams extraValidatorParams : List String) (w : σ) (ctx : CLClientContext)
    (h : (Launch env launcher serviceId delimitedImagesStr participantLogLevel globalLogLevel
      bootnodeContext elClientContext nodeKeystoreDirpaths extraBeaconParams
      extraValidatorParams w).result = .ok ctx) :
    ∃ beaconSupplier validatorSupplier beaconServiceCtx validatorServiceCtx restClient identity
        beaconMonitoringPort validatorMonitoringPort,
      (Launch env launcher serviceId delimitedImagesStr participantLogLevel globalLogLevel
        bootnodeContext elClientContext nodeKeystoreDirpaths extraBeaconParams
        extraValidatorParams w).trace =
        [.addService (serviceId ++ "-beacon") beaconSupplier (.ok beaconServiceCtx),
         .waitForBeaconClientAvailability restClient 100 5000000000 none,
         .getNodeIdentity restClient (.ok identity),
         .addService (serviceId ++ "-validator") validatorSupplier (.ok validatorServiceCtx)] ∧
      beaconServiceCtx.privatePorts.lookup "monitoring" = some beaconMonitoringPort ∧
      validatorServiceCtx.privatePorts.lookup "monitoring" = some validatorMonitoringPort ∧
      ctx.enr = identity.ENR ∧
      ctx.ipAddr = beaconServiceCtx.privateIPAddress ∧
      ctx.httpPortNum = 3500 ∧
      ctx.nodesMetricsInfo =
        [⟨serviceId ++ "-beacon", "/metrics",
          beaconServiceCtx.privateIPAddress ++ ":" ++ fmtNat beaconMonitoringPort.number⟩,
         ⟨serviceId ++ "-validator", "/metrics",
          validatorServiceCtx.privateIPAddress ++ ":" ++
            fmtNat validatorMonitoringPort.number⟩] := by
  obtain hs | ⟨logLevel, -, -, -, -, hs⟩ := Launch_shape env launcher serviceId
    delimitedImagesStr participantLogLevel globalLogLevel bootnodeContext elClientContext
    nodeKeystoreDirpaths extraBeaconParams extraValidatorParams w _ rfl
  · obtain ⟨-, -, e, he⟩ := hs
    rw [he] at h
    cases h
  · simp only [beaconLaunchCall, healthWaitCall, identityCall, validatorLaunchCall] at hs
    obtain ⟨e, -, e1, he⟩ | ⟨bctx, ⟨-, e1, he⟩ | ⟨httpPort, -, ⟨e, -, e1, he⟩ |
      ⟨e, -, e1, he⟩ | ⟨identity, ⟨e, -, e1, he⟩ | ⟨vctx, ht, ⟨e1, he⟩ |
        ⟨bm, vm, hbm, hvm, hr⟩⟩⟩⟩⟩ := hs
    · rw [he] at h
      cases h
    · rw [he] at h
      cases h
    · rw [he] at h
      cases h
    · rw [he] at h
      cases h
    · rw [he] at h
      cases h
    · rw [he] at h
      cases h
    · rw [hr] at h
      injection h with h
      subst h
      exact ⟨_, _, bctx, vctx, _, identity, bm, vm, ht, hbm, hvm, rfl, rfl, rfl, rfl⟩

/-- Witness of C8 in the simulated world: the context returned by the calm run for `cl-0`. -/
theorem Launch_success_context_witness :
    ∃ beaconSupplier validatorSupplier beaconServiceCtx validatorServiceCtx restClient identity
        beaconMonitoringPort validatorMonitoringPort,
      (Sim.launch "beacon:latest,validator:latest" none [] [] Sim.calm).trace =
        [.addService ("cl-0" ++ "-beacon") beaconSupplier (.ok beaconServiceCtx),
         .waitForBeaconClientAvailability restClient 100 5000000000 none,
         .getNodeIdentity restClient (.ok identity),
         .addService ("cl-0" ++ "-validator") validatorSupplier (.ok validatorServiceCtx)] ∧
      beaconServiceCtx.privatePorts.lookup "monitoring" = some beaconMonitoringPort ∧
      validatorServiceCtx.privatePorts.lookup "monitoring" = some validatorMonitoringPort ∧
      "enr:xyz" = identity.ENR ∧
      "10.0.0.5" = beaconServiceCtx.privateIPAddress ∧
      3500 = 3500 ∧
      [(⟨"cl-0-beacon", "/metrics", "10.0.0.5:8080"⟩ : CLNodeMetricsInfo),
       ⟨"cl-0-validator", "/metrics", "10.0.0.6:8081"⟩] =
        [⟨"cl-0" ++ "-beacon", "/metrics",
          beaconServiceCtx.privateIPAddress ++ ":" ++ fmtNat beaconMonitoringPort.number⟩,
         ⟨"cl-0" ++ "-validator", "/metrics",
          validatorServiceCtx.privateIPAddress ++ ":" ++
            fmtNat validatorMonitoringPort.number⟩] :=
  Launch_success_context Sim.env Sim.launcher "cl-0" "beacon:latest,validator:latest" "" .Info
    none Sim.elCtx Sim.keystores [] [] Sim.calm
    ⟨"enr:xyz", "10.0.0.5", 3500,
      [⟨"cl-0-beacon", "/metrics", "10.0.0.5:8080"⟩,
       ⟨"cl-0-validator", "/metrics", "10.0.0.6:8081"⟩], ⟨"10.0.0.5", 3500⟩⟩
    (by decide)

end Prysm

/-! ## Properties of the genesis generator -/

namespace ClGenesis

open Prysm

/-- The directory loop calls `os.Mkdir` only. -/
theorem createSharedDirs_trace {σ : Type} (env : Collaborators σ) (dirs : List SharedPath)
    (w : σ) : ∀ c ∈ (createSharedDirs env dirs w).trace, ∃ name perm answer,
      c = GenesisCall.mkdir name perm answer := by
  induction dirs generalizing w with
  | nil =>
    intro c hc
    simp only [createSharedDirs, List.not_mem_nil] at hc
  | cons d rest ih =>
    intro c hc
    unfold createSharedDirs at hc
    simp only [] at hc
    split at hc
    · simp only [List.mem_singleton] at hc
      exact ⟨_, _, _, hc⟩
    · simp only [List.mem_cons] at hc
      rcases hc with hc | hc
      · exact ⟨_, _, _, hc⟩
      · exact ih _ c hc

/-- The function `createGenesisGenerationConfig` calls `FillTemplateToSharedPath` only. -/
theorem createGenesisGenerationConfig_trace {σ : Type} (env : Collaborators σ)
    (t1 t2 : Template) (data : clGenesisConfigTemplateData) (dir : SharedPath) (w : σ) :
    ∀ c ∈ (createGenesisGenerationConfig env t1 t2 data dir w).trace, ∃ tmpl d dst answer,
      c = GenesisCall.fillTemplateToSharedPath tmpl d dst answer := by
  intro c hc
  unfold createGenesisGenerationConfig at hc
  simp only [] at hc
  split at hc
  · simp only [List.mem_singleton] at hc
    exact ⟨_, _, _, _, hc⟩
  · split at hc
    · simp only [List.mem_append, List.mem_singleton] at hc
      rcases hc with hc | hc <;> exact ⟨_, _, _, _, hc⟩
    · simp only [List.mem_append, List.mem_singleton] at hc
      rcases hc with hc | hc <;> exact ⟨_, _, _, _, hc⟩

/-- What `runClGenesisGeneration` does with the answer of the genesis command: an exit code
other than 0 makes it return the `NewError` whose message ends with the captured output, and
it returns a bundle only after the command answered with exit code 0; the bundle then names
the output directory and its child `config.yaml`. -/
theorem runClGenesisGeneration_spec {σ : Type} (env : Collaborators σ)
    (configFile mnemonicsFile : SharedPath) (jwt : String) (timestamp : Nat)
    (deposit : String) (serviceCtx : ServiceContext) (outputSharedDir : SharedPath) (w : σ)
    (r : Outcome σ CLGenesisData GenesisCall)
    (hr : runClGenesisGeneration env configFile mnemonicsFile jwt timestamp deposit serviceCtx
      outputSharedDir w = r) :
    (∀ ctx cmd code output,
      GenesisCall.execCommand ctx cmd (.ok (code, output)) ∈ r.trace → code ≠ 0 →
      ∃ head, r.result = .error (.newError (head ++ output))) ∧
    (∀ bundle, r.result = .ok bundle →
      (∃ ctx cmd output, GenesisCall.execCommand ctx cmd (.ok (0, output)) ∈ r.trace) ∧
      bundle.parentDirpath = outputSharedDir.GetAbsPathOnThisContainer ∧
      bundle.configYmlFilepath =
        (env.getChildPath outputSharedDir "config.yaml").GetAbsPathOnThisContainer) := by
  unfold runClGenesisGeneration at hr
  simp only [successCommandExitCode] at hr
  split at hr
  · subst hr
    exact ⟨fun _ _ _ _ hm _ => by simp at hm, fun _ hb => by cases hb⟩
  split at hr
  · subst hr
    exact ⟨fun _ _ _ _ hm _ => by simp at hm, fun _ hb => by cases hb⟩
  split at hr
  · subst hr
    exact ⟨fun _ _ _ _ hm _ => by simp at hm, fun _ hb => by cases hb⟩
  split at hr
  · subst hr
    exact ⟨fun _ _ _ _ hm _ => by simp at hm, fun _ hb => by cases hb⟩
  split at hr
  · subst hr
    exact ⟨fun _ _ _ _ hm _ => by simp at hm, fun _ hb => by cases hb⟩
  split at hr
  · subst hr
    exact ⟨fun _ _ _ _ hm _ => by simp at hm, fun _ hb => by cases hb⟩
  split at hr
  · subst hr
    refine ⟨fun _ _ _ _ hm _ => ?_, fun _ hb => by cases hb⟩
    simp at hm
    obtain ⟨-, -, rfl, rfl⟩ := hm
    exact ⟨_, rfl⟩
  rename_i hcode
  split at hr
  · subst hr
    refine ⟨fun _ _ _ _ hm hne => ?_, fun _ hb => by cases hb⟩
    simp at hm
    obtain ⟨-, -, rfl, rfl⟩ := hm
    exact absurd (not_not.mp hcode) hne
  · subst hr
    refine ⟨fun _ _ _ _ hm hne => ?_, fun _ hb => ?_⟩
    · simp at hm
      obtain ⟨-, -, rfl, rfl⟩ := hm
      exact absurd (not_not.mp hcode) hne
    · injection hb with hb
      subst hb
      have h0 := not_not.mp hcode
      subst h0
      exact ⟨⟨_, _, _, List.mem_append_left _ (List.mem_append_right _
        (List.mem_singleton.mpr rfl))⟩, rfl, rfl⟩

/-- C9: in every run of `GenerateCLGenesisData` in which the genesis command answers with an
exit code other than 0, the run returns an error, and no bundle: the `NewError` whose message
ends with the captured output of the command, wrapped once by `Propagate`; and a run returns a
bundle only after the command answered with exit code 0. -/
theorem GenerateCLGenesisData_exit_code {σ : Type} (env : Collaborators σ)
    (genesisGenerationConfigYmlTemplate genesisGenerationMnemonicsYmlTemplate : Template)
    (jwtSecretFilepathOnModuleContainer : String) (serviceCtx : ServiceContext)
    (genesisUnixTimestamp : Nat) (networkId depositContractAddress : String)
    (totalTerminalDifficulty secondsPerSlot altairForkEpoch mergeForkEpoch : Nat)
    (preregisteredValidatorKeysMnemonic : String) (numValidatorKeysToPreregister : Nat)
    (w : σ) :
    (∀ ctx cmd code output,
      GenesisCall.execCommand ctx cmd (.ok (code, output)) ∈
        (GenerateCLGenesisData env genesisGenerationConfigYmlTemplate
          genesisGenerationMnemonicsYmlTemplate jwtSecretFilepathOnModuleContainer serviceCtx
          genesisUnixTimestamp networkId depositContractAddress totalTerminalDifficulty
          secondsPerSlot altairForkEpoch mergeForkEpoch preregisteredValidatorKeysMnemonic
          numValidatorKeysToPreregister w).trace →
      code ≠ 0 →
      ∃ head,
        (GenerateCLGenesisData env genesisGenerationConfigYmlTemplate
          genesisGenerationMnemonicsYmlTemplate jwtSecretFilepathOnModuleContainer serviceCtx
          genesisUnixTimestamp networkId depositContractAddress totalTerminalDifficulty
          secondsPerSlot altairForkEpoch mergeForkEpoch preregisteredValidatorKeysMnemonic
          numValidatorKeysToPreregister w).result =
          .error (.propagate (.newError (head ++ output))
            "An error occurred running the CL genesis generation")) ∧
    (∀ bundle,
      (GenerateCLGenesisData env genesisGenerationConfigYmlTemplate
        genesisGenerationMnemonicsYmlTemplate jwtSecretFilepathOnModuleContainer serviceCtx
        genesisUnixTimestamp networkId depositContractAddress totalTerminalDifficulty
        secondsPerSlot altairForkEpoch mergeForkEpoch preregisteredValidatorKeysMnemonic
        numValidatorKeysToPreregister w).result = .ok bundle →
      ∃ ctx cmd output,
        GenesisCall.execCommand ctx cmd (.ok (0, output)) ∈
          (GenerateCLGenesisData env genesisGenerationConfigYmlTemplate
            genesisGenerationMnemonicsYmlTemplate jwtSecretFilepathOnModuleContainer serviceCtx
            genesisUnixTimestamp networkId depositContractAddress totalTerminalDifficulty
            secondsPerSlot altairForkEpoch mergeForkEpoch preregisteredValidatorKeysMnemonic
            numValidatorKeysToPreregister w).trace) := by
  generalize hout : GenerateCLGenesisData env genesisGenerationConfigYmlTemplate
    genesisGenerationMnemonicsYmlTemplate jwtSecretFilepathOnModuleContainer serviceCtx
    genesisUnixTimestamp networkId depositContractAddress totalTerminalDifficulty
    secondsPerSlot altairForkEpoch mergeForkEpoch preregisteredValidatorKeysMnemonic
    numValidatorKeysToPreregister w = out
  unfold GenerateCLGenesisData at hout
  simp only [] at hout
  split at hout
  · rename_i err w1 t1 h1
    subst hout
    refine ⟨fun ctx cmd code output hm _ => ?_, fun _ hb => by cases hb⟩
    have hm1 := createSharedDirs_trace env _ w _ (by rw [h1]; exact hm)
    obtain ⟨_, _, _, hc⟩ := hm1
    cases hc
  rename_i u w1 t1 h1
  have ht1 : ∀ c ∈ t1, ∃ name perm answer, c = GenesisCall.mkdir name perm answer := by
    intro c hc
    exact createSharedDirs_trace env _ w c (by rw [h1]; exact hc)
  split at hout
  · rename_i err w2 t2 h2
    subst hout
    refine ⟨fun ctx cmd code output hm _ => ?_, fun _ hb => by cases hb⟩
    simp only [List.mem_append] at hm
    rcases hm with hm | hm
    · obtain ⟨_, _, _, hc⟩ := ht1 _ hm
      cases hc
    · obtain ⟨_, _, _, _, hc⟩ :=
        createGenesisGenerationConfig_trace env _ _ _ _ w1 _ (by rw [h2]; exact hm)
      cases hc
  rename_i configFile mnemonicsFile w2 t2 h2
  have ht2 : ∀ c ∈ t2, ∃ tmpl d dst answer,
      c = GenesisCall.fillTemplateToSharedPath tmpl d dst answer := by
    intro c hc
    exact createGenesisGenerationConfig_trace env _ _ _ _ w1 c (by rw [h2]; exact hc)
  have hnot : ∀ (t3 : List GenesisCall) ctx cmd (answer : Except StackErr (Int × String)),
      GenesisCall.execCommand ctx cmd answer ∈ t1 ++ t2 ++ t3 →
      GenesisCall.execCommand ctx cmd answer ∈ t3 := by
    intro t3 ctx cmd answer hm
    simp only [List.mem_append] at hm
    rcases hm with (hm | hm) | hm
    · obtain ⟨_, _, _, hc⟩ := ht1 _ hm
      cases hc
    · obtain ⟨_, _, _, _, hc⟩ := ht2 _ hm
      cases hc
    · exact hm
  split at hout
  · rename_i err w3 t3 h3
    subst hout
    refine ⟨fun ctx cmd code output hm hne => ?_, fun _ hb => by cases hb⟩
    have hspec := (runClGenesisGeneration_spec env _ _ _ _ _ _ _ _ _ h3).1 ctx cmd code output
      (hnot _ _ _ _ hm) hne
    obtain ⟨head, hh⟩ := hspec
    simp only at hh
    injection hh with hh
    subst hh
    exact ⟨head, rfl⟩
  · rename_i result w3 t3 h3
    subst hout
    refine ⟨fun ctx cmd code output hm hne => ?_, fun bundle hb => ?_⟩
    · have hspec := (runClGenesisGeneration_spec env _ _ _ _ _ _ _ _ _ h3).1 ctx cmd code
        output (hnot _ _ _ _ hm) hne
      obtain ⟨head, hh⟩ := hspec
      cases hh
    · obtain ⟨⟨ctx, cmd, output, hm⟩, -, -⟩ :=
        (runClGenesisGeneration_spec env _ _ _ _ _ _ _ _ _ h3).2 result rfl
      exact ⟨ctx, cmd, output, List.mem_append_right _ hm⟩

/-- Witness of C9 in the simulated world: when the genesis command exits with code 3 and prints
`boom` the run returns an error whose root message ends with `boom`, and the calm run returns
a bundle after the command exited with code 0. -/
theorem GenerateCLGenesisData_exit_code_witness :
    ((3 : Int) ≠ 0 ∧
      ∃ head, (Sim.generate (Sim.exiting 3 "boom")).result =
        .error (.propagate (.newError (head ++ "boom"))
          "An error occurred running the CL genesis generation")) ∧
    ∃ ctx cmd output,
      GenesisCall.execCommand ctx cmd (.ok (0, output)) ∈ (Sim.generate Sim.calm).trace :=
  ⟨⟨by decide,
      (GenerateCLGenesisData_exit_code Sim.env "config-template" "mnemonics-template"
        "/genesis/jwtsecret" Sim.genesisService 1650000100 "test"
        "0x4242424242424242424242424242424242424242" 0 12 0 0 "abandon" 4
        (Sim.exiting 3 "boom")).1 Sim.genesisService
        [ "/usr/local/bin/eth2-testnet-genesis", "phase0",
          "--config", "/shared/cl-genesis-1650000000/config/config.yaml",
          "--eth1-block", "0x0000000000000000000000000000000000000000000000000000000000000000",
          "--mnemonics", "/shared/cl-genesis-1650000000/config/mnemonics.yaml",
          "--timestamp", "1650000100",
          "--tranches-dir", "/shared/cl-genesis-1650000000/output/tranches",
          "--state-output", "/shared/cl-genesis-1650000000/output/genesis.ssz" ]
        3 "boom" (by decide) (by decide)⟩,
    (GenerateCLGenesisData_exit_code Sim.env "config-template" "mnemonics-template"
      "/genesis/jwtsecret" Sim.genesisService 1650000100 "test"
      "0x4242424242424242424242424242424242424242" 0 12 0 0 "abandon" 4 Sim.calm).2
      ⟨"/module/gen/cl-genesis-1650000000/output",
        "/module/gen/cl-genesis-1650000000/output/jwtsecret",
        "/module/gen/cl-genesis-1650000000/output/config.yaml",
        "/module/gen/cl-genesis-1650000000/output/genesis.ssz"⟩ (by decide)⟩

/-- C10: whatever the genesis parameters, the genesis-config path of the bundle returned by
`GenerateCLGenesisData` is the path, on the module container, of the child `config.yaml` of the
run's output directory, which is the child `output` of the run's working area and the parent
directory named in the bundle. -/
theorem GenerateCLGenesisData_config_filename {σ : Type} (env : Collaborators σ)
    (genesisGenerationConfigYmlTemplate genesisGenerationMnemonicsYmlTemplate : Template)
    (jwtSecretFilepathOnModuleContainer : String) (serviceCtx : ServiceContext)
    (genesisUnixTimestamp : Nat) (networkId depositContractAddress : String)
    (totalTerminalDifficulty secondsPerSlot altairForkEpoch mergeForkEpoch : Nat)
    (preregisteredValidatorKeysMnemonic : String) (numValidatorKeysToPreregister : Nat)
    (w : σ) (bundle : CLGenesisData)
    (h : (GenerateCLGenesisData env genesisGenerationConfigYmlTemplate
      genesisGenerationMnemonicsYmlTemplate jwtSecretFilepathOnModuleContainer serviceCtx
      genesisUnixTimestamp networkId depositContractAddress totalTerminalDifficulty
      secondsPerSlot altairForkEpoch mergeForkEpoch preregisteredValidatorKeysMnemonic
      numValidatorKeysToPreregister w).result = .ok bundle) :
    bundle.parentDirpath =
      (env.getChildPath (generationInstanceSharedDir env serviceCtx w)
        "output").GetAbsPathOnThisContainer ∧
    bundle.configYmlFilepath =
      (env.getChildPath (env.getChildPath (generationInstanceSharedDir env serviceCtx w)
        "output") "config.yaml").GetAbsPathOnThisContainer := by
  generalize hout : GenerateCLGenesisData env genesisGenerationConfigYmlTemplate
    genesisGenerationMnemonicsYmlTemplate jwtSecretFilepathOnModuleContainer serviceCtx
    genesisUnixTimestamp networkId depositContractAddress totalTerminalDifficulty
    secondsPerSlot altairForkEpoch mergeForkEpoch preregisteredValidatorKeysMnemonic
    numValidatorKeysToPreregister w = out at h
  unfold GenerateCLGenesisData at hout
  simp only [] at hout
  split at hout
  · subst hout
    cases h
  split at hout
  · subst hout
    cases h
  split at hout
  · subst hout
    cases h
  · rename_i result w3 t3 h3
    subst hout
    injection h with h
    subst h
    obtain ⟨-, hp, hc⟩ := (runClGenesisGeneration_spec env _ _ _ _ _ _ _ _ _ h3).2 _ rfl
    exact ⟨hp, hc⟩

/-- Witness of C10 in the simulated world: the bundle of the calm run, made at Unix time
1650000000. -/
theorem GenerateCLGenesisData_config_filename_witness :
    "/module/gen/cl-genesis-1650000000/output" =
      (Sim.env.getChildPath (generationInstanceSharedDir Sim.env Sim.genesisService Sim.calm)
        "output").GetAbsPathOnThisContainer ∧
    "/module/gen/cl-genesis-1650000000/output/config.yaml" =
      (Sim.env.getChildPath (Sim.env.getChildPath
        (generationInstanceSharedDir Sim.env Sim.genesisService Sim.calm)
        "output") "config.yaml").GetAbsPathOnThisContainer :=
  GenerateCLGenesisData_config_filename Sim.env "config-template" "mnemonics-template"
    "/genesis/jwtsecret" Sim.genesisService 1650000100 "test"
    "0x4242424242424242424242424242424242424242" 0 12 0 0 "abandon" 4 Sim.calm
    ⟨"/module/gen/cl-genesis-1650000000/output",
      "/module/gen/cl-genesis-1650000000/output/jwtsecret",
      "/module/gen/cl-genesis-1650000000/output/config.yaml",
      "/module/gen/cl-genesis-1650000000/output/genesis.ssz"⟩ (by decide)

end ClGenesis

/-! ## Further properties of the launcher -/

namespace Prysm

/-- C11: in every run of `Launch` the node identity is fetched at most once; a fetch is
preceded by exactly the successful beacon launch and the successful health wait on the same
REST client; and when the fetch fails it is the last call of the run (no second fetch and no
`AddService` for the validator service, the beacon launch being the only `AddService`) and
`Launch` returns an error, so no client context. -/
theorem Launch_identity_fetch {σ : Type} (env : Collaborators σ)
    (launcher : PrysmCLClientLauncher)
    (serviceId delimitedImagesStr participantLogLevel : String)
    (globalLogLevel : GlobalClientLogLevel) (bootnodeContext : Option CLClientContext)
    (elClientContext : ELClientContext) (nodeKeystoreDirpaths : NodeTypeKeystoreDirpaths)
    (extraBeaconParams extraValidatorParams : List String) (w : σ) :
    ((Launch env launcher serviceId delimitedImagesStr participantLogLevel globalLogLevel
        bootnodeContext elClientContext nodeKeystoreDirpaths extraBeaconParams
        extraValidatorParams w).trace.filter LaunchCall.isGetNodeIdentity).length ≤ 1 ∧
    (∀ pre restClient answer post,
      (Launch env launcher serviceId delimitedImagesStr participantLogLevel globalLogLevel
        bootnodeContext elClientContext nodeKeystoreDirpaths extraBeaconParams
        extraValidatorParams w).trace =
        pre ++ LaunchCall.getNodeIdentity restClient answer :: post →
      ∃ beaconSupplier beaconServiceCtx,
        pre = [.addService (serviceId ++ "-beacon") beaconSupplier (.ok beaconServiceCtx),
               .waitForBeaconClientAvailability restClient 100 5000000000 none]) ∧
    (∀ pre restClient err post,
      (Launch env launcher serviceId delimitedImagesStr participantLogLevel globalLogLevel
        bootnodeContext elClientContext nodeKeystoreDirpaths extraBeaconParams
        extraValidatorParams w).trace =
        pre ++ LaunchCall.getNodeIdentity restClient (.error err) :: post →
      post = [] ∧
      (∃ e, (Launch env launcher serviceId delimitedImagesStr participantLogLevel
        globalLogLevel bootnodeContext elClientContext nodeKeystoreDirpaths extraBeaconParams
        extraValidatorParams w).result = .error e) ∧
      ((Launch env launcher serviceId delimitedImagesStr participantLogLevel globalLogLevel
          bootnodeContext elClientContext nodeKeystoreDirpaths extraBeaconParams
          extraValidatorParams w).trace.filter LaunchCall.isAddService).length = 1 ∧
      ∀ supplier answer,
        LaunchCall.addService (serviceId ++ "-validator") supplier answer ∉
          (Launch env launcher serviceId delimitedImagesStr participantLogLevel globalLogLevel
            bootnodeContext elClientContext nodeKeystoreDirpaths extraBeaconParams
            extraValidatorParams w).trace) := by
  obtain h | ⟨logLevel, -, -, -, -, h⟩ := Launch_shape env launcher serviceId delimitedImagesStr
    participantLogLevel globalLogLevel bootnodeContext elClientContext nodeKeystoreDirpaths
    extraBeaconParams extraValidatorParams w _ rfl
  · obtain ⟨ht, -, -⟩ := h
    rw [ht]
    refine ⟨by simp, ?_, ?_⟩
    · intro pre restClient answer post hp
      exact absurd (congrArg List.length hp) (by simp; omega)
    · intro pre restClient err post hp
      exact absurd (congrArg List.length hp) (by simp; omega)
  · simp only [beaconLaunchCall, healthWaitCall, identityCall, validatorLaunchCall] at h
    obtain ⟨e, ht, -⟩ | ⟨bctx, ⟨ht, -⟩ | ⟨httpPort, -, ⟨e, ht, -⟩ | ⟨e, ht, hr⟩ |
      ⟨identity, ⟨e, ht, -⟩ | ⟨vctx, ht, -⟩⟩⟩⟩ := h
    · rw [ht]
      refine ⟨by simp [LaunchCall.isGetNodeIdentity], ?_, ?_⟩
      · intro pre restClient answer post hp
        obtain ⟨-, hx⟩ := split_one hp
        cases hx
      · intro pre restClient err post hp
        obtain ⟨-, hx⟩ := split_one hp
        cases hx
    · rw [ht]
      refine ⟨by simp [LaunchCall.isGetNodeIdentity], ?_, ?_⟩
      · intro pre restClient answer post hp
        obtain ⟨-, hx⟩ := split_one hp
        cases hx
      · intro pre restClient err post hp
        obtain ⟨-, hx⟩ := split_one hp
        cases hx
    · rw [ht]
      refine ⟨by simp [LaunchCall.isGetNodeIdentity], ?_, ?_⟩
      · intro pre restClient answer post hp
        obtain ⟨-, hx⟩ | ⟨-, hx⟩ := split_two hp
        · cases hx
        · cases hx
      · intro pre restClient err post hp
        obtain ⟨-, hx⟩ | ⟨-, hx⟩ := split_two hp
        · cases hx
        · cases hx
    · rw [ht]
      refine ⟨by simp [LaunchCall.isGetNodeIdentity], ?_, ?_⟩
      · intro pre restClient answer post hp
        obtain ⟨-, hx⟩ | ⟨-, hx⟩ | ⟨hpre, hx⟩ := split_three hp
        · cases hx
        · cases hx
        · injection hx with h1 h2
          subst h1
          exact ⟨_, _, hpre⟩
      · intro pre restClient err post hp
        obtain ⟨-, hx⟩ | ⟨-, hx⟩ | ⟨hpre, hx⟩ := split_three hp
        · cases hx
        · cases hx
        · subst hpre
          have hpost : post = [] := by
            simp only [List.cons_append, List.nil_append, List.cons.injEq, true_and] at hp
            exact hp.2.symm
          refine ⟨hpost, hr, rfl, ?_⟩
          intro supplier answer hm
          simp only [List.mem_cons, List.mem_singleton, List.not_mem_nil, or_false] at hm
          rcases hm with hm | hm | hm
          · exact validator_call_ne_beacon_call _ _ _ _ _ hm
          · cases hm
          · cases hm
    · rw [ht]
      refine ⟨by simp [LaunchCall.isGetNodeIdentity], ?_, ?_⟩
      · intro pre restClient answer post hp
        obtain ⟨-, hx⟩ | ⟨-, hx⟩ | ⟨hpre, hx⟩ | ⟨-, hx⟩ := split_four hp
        · cases hx
        · cases hx
        · injection hx with h1 h2
          subst h1
          exact ⟨_, _, hpre⟩
        · cases hx
      · intro pre restClient err post hp
        obtain ⟨-, hx⟩ | ⟨-, hx⟩ | ⟨-, hx⟩ | ⟨-, hx⟩ := split_four hp
        · cases hx
        · cases hx
        · cases hx
        · cases hx
    · rw [ht]
      refine ⟨by simp [LaunchCall.isGetNodeIdentity], ?_, ?_⟩
      · intro pre restClient answer post hp
        obtain ⟨-, hx⟩ | ⟨-, hx⟩ | ⟨hpre, hx⟩ | ⟨-, hx⟩ := split_four hp
        · cases hx
        · cases hx
        · injection hx with h1 h2
          subst h1
          exact ⟨_, _, hpre⟩
        · cases hx
      · intro pre restClient err post hp
        obtain ⟨-, hx⟩ | ⟨-, hx⟩ | ⟨-, hx⟩ | ⟨-, hx⟩ := split_four hp
        · cases hx
        · cases hx
        · cases hx
        · cases hx

/-- Witness of C11 in the simulated world: in the calm run the identity is fetched once, as the
third call; in the run whose identity fetch fails the fetch is the last call, the run returns
an error and the beacon launch is its only `AddService`. -/
theorem Launch_identity_fetch_witness :
    ((Sim.launch "beacon:latest,validator:latest" none [] []
        Sim.calm).trace.filter LaunchCall.isGetNodeIdentity).length ≤ 1 ∧
    (∃ beaconSupplier beaconServiceCtx,
      (Sim.launch "beacon:latest,validator:latest" none [] [] Sim.calm).trace.take 2 =
        [.addService ("cl-0" ++ "-beacon") beaconSupplier (.ok beaconServiceCtx),
         .waitForBeaconClientAvailability ⟨"10.0.0.5", 3500⟩ 100 5000000000 none]) ∧
    ((∃ e, (Sim.launch "beacon:latest,validator:latest" none [] []
        (Sim.failingAt ["identity"])).result = .error e) ∧
      ((Sim.launch "beacon:latest,validator:latest" none [] []
        (Sim.failingAt ["identity"])).trace.filter LaunchCall.isAddService).length = 1 ∧
      ∀ supplier answer,
        LaunchCall.addService ("cl-0" ++ "-validator") supplier answer ∉
          (Sim.launch "beacon:latest,validator:latest" none [] []
            (Sim.failingAt ["identity"])).trace) :=
  ⟨(Launch_identity_fetch Sim.env Sim.launcher "cl-0" "beacon:latest,validator:latest" ""
      .Info none Sim.elCtx Sim.keystores [] [] Sim.calm).1,
    (Launch_identity_fetch Sim.env Sim.launcher "cl-0" "beacon:latest,validator:latest" ""
      .Info none Sim.elCtx Sim.keystores [] [] Sim.calm).2.1
      ((Sim.launch "beacon:latest,validator:latest" none [] [] Sim.calm).trace.take 2)
      ⟨"10.0.0.5", 3500⟩ (.ok ⟨"enr:xyz"⟩)
      ((Sim.launch "beacon:latest,validator:latest" none [] [] Sim.calm).trace.drop 3) rfl,
    ((Launch_identity_fetch Sim.env Sim.launcher "cl-0" "beacon:latest,validator:latest" ""
      .Info none Sim.elCtx Sim.keystores [] [] (Sim.failingAt ["identity"])).2.2
      ((Sim.launch "beacon:latest,validator:latest" none [] []
        (Sim.failingAt ["identity"])).trace.take 2)
      ⟨"10.0.0.5", 3500⟩ (.external "failed: identity") [] rfl).2⟩

end Prysm

/-! ## Further properties of the genesis generator -/

namespace ClGenesis

open Prysm

/-- The decimal digit characters stand for their digit and none of them is the minus sign. -/
theorem digitChar_spec : ∀ k < 10, (Nat.digitChar k).toNat - 48 = k ∧ Nat.digitChar k ≠ '-' := by
  decide

/-- With enough fuel, `Nat.toDigitsCore 10` puts before `ds` a non-empty run of characters
other than `-` whose decimal value is `n`. -/
theorem toDigitsCore_spec (fuel : Nat) : ∀ (n : Nat) (ds : List Char), n < fuel →
    ∃ pre, Nat.toDigitsCore 10 fuel n ds = pre ++ ds ∧ pre ≠ [] ∧ (∀ c ∈ pre, c ≠ '-') ∧
      pre.foldl (fun acc c => acc * 10 + (c.toNat - 48)) 0 = n := by
  induction fuel with
  | zero => intro n ds h; omega
  | succ fuel ih =>
    intro n ds h
    have hd := digitChar_spec (n % 10) (Nat.mod_lt _ (by decide))
    unfold Nat.toDigitsCore
    simp only []
    split
    · rename_i h0
      refine ⟨[Nat.digitChar (n % 10)], rfl, by simp, ?_, ?_⟩
      · intro c hc
        rw [List.mem_singleton] at hc
        rw [hc]
        exact hd.2
      · simp only [List.foldl_cons, List.foldl_nil, Nat.zero_mul, Nat.zero_add]
        rw [hd.1]
        have := Nat.div_add_mod n 10
        omega
    · rename_i h0
      obtain ⟨pre, hpre, -, hc, hv⟩ := ih (n / 10) (Nat.digitChar (n % 10) :: ds) (by omega)
      refine ⟨pre ++ [Nat.digitChar (n % 10)], ?_, by simp, ?_, ?_⟩
      · rw [hpre]
        simp
      · intro c hm
        rw [List.mem_append, List.mem_singleton] at hm
        rcases hm with hm | hm
        · exact hc c hm
        · rw [hm]
          exact hd.2
      · rw [List.foldl_append, hv]
        simp only [List.foldl_cons, List.foldl_nil]
        rw [hd.1]
        have := Nat.div_add_mod n 10
        omega

/-- The characters of the `%v` rendering of a natural number: a non-empty run of characters
other than `-` whose decimal value is the number. -/
theorem fmtNat_spec (n : Nat) :
    (fmtNat n).data ≠ [] ∧ (∀ c ∈ (fmtNat n).data, c ≠ '-') ∧
      (fmtNat n).data.foldl (fun acc c => acc * 10 + (c.toNat - 48)) 0 = n := by
  obtain ⟨pre, hpre, hne, hc, hv⟩ := toDigitsCore_spec (n + 1) n [] (by omega)
  have hdata : (fmtNat n).data = pre := by
    show (Nat.toDigits 10 n) = pre
    unfold Nat.toDigits
    rw [hpre, List.append_nil]
  rw [hdata]
  exact ⟨hne, hc, hv⟩

/-- Different natural numbers have different `%v` renderings. -/
theorem fmtNat_injective {a b : Nat} (h : fmtNat a = fmtNat b) : a = b := by
  have ha := (fmtNat_spec a).2.2
  have hb := (fmtNat_spec b).2.2
  rw [h] at ha
  exact ha.symm.trans hb

/-- Different integers have different `%v` renderings. -/
theorem fmtInt_injective {a b : Int} (h : fmtInt a = fmtInt b) : a = b := by
  have hneg : ∀ (m k : Nat), fmtNat m ≠ "-" ++ fmtNat k := by
    intro m k hmk
    obtain ⟨hne, hc, -⟩ := fmtNat_spec m
    rw [hmk, String.data_append] at hc
    exact hc '-' (List.mem_append_left _ (by decide)) rfl
  cases a with
  | ofNat m =>
    cases b with
    | ofNat k =>
      have h1 : fmtNat m = fmtNat k := h
      rw [fmtNat_injective h1]
    | negSucc k =>
      have h1 : fmtNat m = "-" ++ fmtNat (k + 1) := h
      exact absurd h1 (hneg _ _)
  | negSucc m =>
    cases b with
    | ofNat k =>
      have h1 : "-" ++ fmtNat (m + 1) = fmtNat k := h
      exact absurd h1.symm (hneg _ _)
    | negSucc k =>
      have h1 : "-" ++ fmtNat (m + 1) = "-" ++ fmtNat (k + 1) := h
      have h2 := congrArg String.data h1
      rw [String.data_append, String.data_append] at h2
      have h3 := fmtNat_injective (String.ext (List.append_cancel_left h2))
      have h4 : m = k := by omega
      rw [h4]

/-- The directory loop starts by making the first directory of its list. -/
theorem createSharedDirs_head {σ : Type} (env : Collaborators σ) (d : SharedPath)
    (rest : List SharedPath) (w : σ) :
    ∃ answer calls, (createSharedDirs env (d :: rest) w).trace =
      GenesisCall.mkdir d.GetAbsPathOnThisContainer osModePerm answer :: calls := by
  unfold createSharedDirs
  simp only []
  split
  · exact ⟨_, _, rfl⟩
  · exact ⟨_, _, rfl⟩

/-- Counterexample to C12 as stated: two different runs in the simulated world that read the
same Unix second, 1650000000, get the same working area, and each starts by making the
directory `cl-genesis-1650000000`. -/
theorem working_area_name_collision :
    Sim.calm ≠ Sim.exiting 3 "boom" ∧
    Sim.env.nowUnix Sim.calm = Sim.env.nowUnix (Sim.exiting 3 "boom") ∧
    generationInstanceSharedDir Sim.env Sim.genesisService Sim.calm =
      generationInstanceSharedDir Sim.env Sim.genesisService (Sim.exiting 3 "boom") ∧
    (Sim.generate Sim.calm).trace.head? =
      some (.mkdir "/module/gen/cl-genesis-1650000000" osModePerm none) ∧
    (Sim.generate (Sim.exiting 3 "boom")).trace.head? =
      some (.mkdir "/module/gen/cl-genesis-1650000000" osModePerm none) := by
  decide

/-- C12, amended: the working area of a run of `GenerateCLGenesisData` is the child of the
service's shared directory named `cl-genesis-` followed by the Unix time, in seconds, read at
the start of the run, and making that directory is the first call of the run; the names of two
runs differ exactly when the Unix times they read differ (runs that read the same second get
the same name). -/
theorem GenerateCLGenesisData_working_area {σ : Type} (env : Collaborators σ)
    (genesisGenerationConfigYmlTemplate genesisGenerationMnemonicsYmlTemplate : Template)
    (jwtSecretFilepathOnModuleContainer : String) (serviceCtx : ServiceContext)
    (genesisUnixTimestamp : Nat) (networkId depositContractAddress : String)
    (totalTerminalDifficulty secondsPerSlot altairForkEpoch mergeForkEpoch : Nat)
    (preregisteredValidatorKeysMnemonic : String) (numValidatorKeysToPreregister : Nat)
    (w w2 : σ) :
    generationInstanceSharedDir env serviceCtx w =
      env.getChildPath serviceCtx.GetSharedDirectory
        ("cl-genesis-" ++ fmtInt (env.nowUnix w)) ∧
    (∃ answer calls,
      (GenerateCLGenesisData env genesisGenerationConfigYmlTemplate
        genesisGenerationMnemonicsYmlTemplate jwtSecretFilepathOnModuleContainer serviceCtx
        genesisUnixTimestamp networkId depositContractAddress totalTerminalDifficulty
        secondsPerSlot altairForkEpoch mergeForkEpoch preregisteredValidatorKeysMnemonic
        numValidatorKeysToPreregister w).trace =
        GenesisCall.mkdir
          (generationInstanceSharedDir env serviceCtx w).GetAbsPathOnThisContainer
          osModePerm answer :: calls) ∧
    ("cl-genesis-" ++ fmtInt (env.nowUnix w) = "cl-genesis-" ++ fmtInt (env.nowUnix w2) ↔
      env.nowUnix w = env.nowUnix w2) := by
  refine ⟨rfl, ?_, ?_⟩
  · generalize hout : GenerateCLGenesisData env genesisGenerationConfigYmlTemplate
      genesisGenerationMnemonicsYmlTemplate jwtSecretFilepathOnModuleContainer serviceCtx
      genesisUnixTimestamp networkId depositContractAddress totalTerminalDifficulty
      secondsPerSlot altairForkEpoch mergeForkEpoch preregisteredValidatorKeysMnemonic
      numValidatorKeysToPreregister w = out
    unfold GenerateCLGenesisData at hout
    simp only [] at hout
    obtain ⟨answer, calls, hhead⟩ := createSharedDirs_head env
      (generationInstanceSharedDir env serviceCtx w)
      [env.getChildPath (generationInstanceSharedDir env serviceCtx w) configDirname,
       env.getChildPath (generationInstanceSharedDir env serviceCtx w) outputDirname] w
    split at hout
    · rename_i err w1 t1 h1
      subst hout
      rw [h1] at hhead
      exact ⟨answer, calls, hhead⟩
    rename_i u w1 t1 h1
    rw [h1] at hhead
    simp only at hhead
    subst hhead
    split at hout
    · subst hout
      exact ⟨answer, _, rfl⟩
    split at hout
    · subst hout
      exact ⟨answer, _, rfl⟩
    · subst hout
      exact ⟨answer, _, rfl⟩
  · constructor
    · intro h
      have h2 := congrArg String.data h
      rw [String.data_append, String.data_append] at h2
      exact fmtInt_injective (String.ext (List.append_cancel_left h2))
    · intro h
      rw [h]

/-- Witness of the amended C12 in the simulated world: the runs read at 1650000000 and one
second later have the working-area names `cl-genesis-1650000000` and `cl-genesis-1650000001`,
and the calm run starts by making its working area. -/
theorem GenerateCLGenesisData_working_area_witness :
    "cl-genesis-" ++ fmtInt (Sim.env.nowUnix Sim.calm) = "cl-genesis-1650000000" ∧
    "cl-genesis-" ++ fmtInt (Sim.env.nowUnix (Sim.laterBy 1)) = "cl-genesis-1650000001" ∧
    (∃ answer calls, (Sim.generate Sim.calm).trace =
      GenesisCall.mkdir
        (generationInstanceSharedDir Sim.env Sim.genesisService
          Sim.calm).GetAbsPathOnThisContainer osModePerm answer :: calls) ∧
    ("cl-genesis-" ++ fmtInt (Sim.env.nowUnix Sim.calm) =
        "cl-genesis-" ++ fmtInt (Sim.env.nowUnix (Sim.laterBy 1)) ↔
      Sim.env.nowUnix Sim.calm = Sim.env.nowUnix (Sim.laterBy 1)) :=
  ⟨by decide, by decide,
    (GenerateCLGenesisData_working_area Sim.env "config-template" "mnemonics-template"
      "/genesis/jwtsecret" Sim.genesisService 1650000100 "test"
      "0x4242424242424242424242424242424242424242" 0 12 0 0 "abandon" 4 Sim.calm
      (Sim.laterBy 1)).2⟩

end ClGenesis

/-! ## The launch specifications `Launch` hands to the runtime -/

namespace Prysm

/-- A launch spec made by the beacon supplier has the beacon image it was given. -/
theorem beacon_supplier_image {σ : Type} (env : Collaborators σ)
    (beaconImage : String) (bootnodeContext : Option CLClientContext)
    (elClientContext : ELClientContext) (logLevel : String)
    (genesisConfigYmlFilepathOnModuleContainer genesisSszFilepathOnModuleContainer : String)
    (extraParams : List String) (privateIpAddr : String) (sharedDir : SharedPath) (w w1 : σ)
    (cfg : ContainerConfig)
    (h : getBeaconContainerConfigSupplier env beaconImage bootnodeContext elClientContext
      logLevel genesisConfigYmlFilepathOnModuleContainer genesisSszFilepathOnModuleContainer
      extraParams privateIpAddr sharedDir w = (.ok cfg, w1)) :
    cfg.image = beaconImage := by
  unfold getBeaconContainerConfigSupplier at h
  simp only [] at h
  split at h
  · cases h
  split at h
  · cases h
  injection h with h hw
  injection h with h
  subst h
  rfl

/-- A launch spec made by the validator supplier has the validator image it was given and the
two beacon endpoint flags with the endpoints it was given. -/
theorem validator_supplier_spec {σ : Type} (env : Collaborators σ)
    (launcher : PrysmCLClientLauncher) (validatorImage serviceId logLevel : String)
    (beaconRPCEndpoint beaconHTTPEndpoint : String)
    (validatorKeysDirpathOnModuleContainer validatorSecretsDirpathOnModuleContainer : String)
    (extraParams : List String) (privateIpAddr : String) (sharedDir : SharedPath) (w w1 : σ)
    (cfg : ContainerConfig)
    (h : getValidatorContainerConfigSupplier env launcher validatorImage serviceId logLevel
      beaconRPCEndpoint beaconHTTPEndpoint validatorKeysDirpathOnModuleContainer
      validatorSecretsDirpathOnModuleContainer extraParams privateIpAddr sharedDir w =
        (.ok cfg, w1)) :
    cfg.image = validatorImage ∧
    "--beacon-rpc-provider=" ++ beaconRPCEndpoint ∈ cfg.cmdOverride ∧
    "--beacon-rpc-gateway-provider=" ++ beaconHTTPEndpoint ∈ cfg.cmdOverride := by
  unfold getValidatorContainerConfigSupplier at h
  simp only [append_extra_params] at h
  split at h
  · cases h
  split at h
  · cases h
  split at h
  · cases h
  split at h
  · cases h
  injection h with h hw
  injection h with h
  subst h
  refine ⟨rfl, ?_, ?_⟩ <;>
    simp only [List.mem_append, List.mem_cons, true_or, or_true]

/-- C13: in every run of `Launch` that makes the `AddService` call for the validator service,
with `A` the private address the runtime reported for the beacon service, the supplier handed
over is the validator builder with beacon RPC endpoint `A:4000` and beacon HTTP endpoint
`A:3500`, so every launch spec it makes has the arguments `--beacon-rpc-provider=A:4000` and
`--beacon-rpc-gateway-provider=A:3500`. -/
theorem Launch_validator_endpoints {σ : Type} (env : Collaborators σ)
    (launcher : PrysmCLClientLauncher)
    (serviceId delimitedImagesStr participantLogLevel : String)
    (globalLogLevel : GlobalClientLogLevel) (bootnodeContext : Option CLClientContext)
    (elClientContext : ELClientContext) (nodeKeystoreDirpaths : NodeTypeKeystoreDirpaths)
    (extraBeaconParams extraValidatorParams : List String) (w : σ)
    (pre : List (LaunchCall σ)) (supplier : Supplier σ)
    (answer : Except StackErr ServiceContext) (post : List (LaunchCall σ))
    (h : (Launch env launcher serviceId delimitedImagesStr participantLogLevel globalLogLevel
      bootnodeContext elClientContext nodeKeystoreDirpaths extraBeaconParams
      extraValidatorParams w).trace =
      pre ++ LaunchCall.addService (serviceId ++ "-validator") supplier answer :: post) :
    ∃ beaconSupplier beaconServiceCtx restClient identity logLevel,
      pre = [.addService (serviceId ++ "-beacon") beaconSupplier (.ok beaconServiceCtx),
             .waitForBeaconClientAvailability restClient 100 5000000000 none,
             .getNodeIdentity restClient (.ok identity)] ∧
      supplier = getValidatorContainerConfigSupplier env launcher
        ((Split delimitedImagesStr ',').getD 1 "") (serviceId ++ "-validator") logLevel
        (beaconServiceCtx.GetPrivateIPAddress ++ ":4000")
        (beaconServiceCtx.GetPrivateIPAddress ++ ":3500")
        nodeKeystoreDirpaths.RawKeysDirpath nodeKeystoreDirpaths.PrysmDirpath
        extraValidatorParams ∧
      ∀ privateIpAddr sharedDir w0 cfg w1,
        supplier privateIpAddr sharedDir w0 = (.ok cfg, w1) →
        "--beacon-rpc-provider=" ++ (beaconServiceCtx.GetPrivateIPAddress ++ ":4000") ∈
          cfg.cmdOverride ∧
        "--beacon-rpc-gateway-provider=" ++ (beaconServiceCtx.GetPrivateIPAddress ++ ":3500") ∈
          cfg.cmdOverride := by
  obtain hs | ⟨logLevel, -, -, -, -, hs⟩ := Launch_shape env launcher serviceId
    delimitedImagesStr participantLogLevel globalLogLevel bootnodeContext elClientContext
    nodeKeystoreDirpaths extraBeaconParams extraValidatorParams w _ rfl
  · obtain ⟨ht, -, -⟩ := hs
    rw [ht] at h
    exact absurd (congrArg List.length h) (by simp; omega)
  · simp only [beaconLaunchCall, healthWaitCall, identityCall, validatorLaunchCall] at hs
    have key : ∀ (bctx : ServiceContext) (httpPort : PortSpec) (identity : NodeIdentity)
        (vanswer : Except StackErr ServiceContext),
        (Launch env launcher serviceId delimitedImagesStr participantLogLevel globalLogLevel
          bootnodeContext elClientContext nodeKeystoreDirpaths extraBeaconParams
          extraValidatorParams w).trace =
          [.addService (serviceId ++ "-beacon")
            (getBeaconContainerConfigSupplier env ((Split delimitedImagesStr ',').getD 0 "")
              bootnodeContext elClientContext logLevel
              launcher.genesisConfigYmlFilepathOnModuleContainer
              launcher.genesisSszFilepathOnModuleContainer extraBeaconParams) (.ok bctx),
           .waitForBeaconClientAvailability ⟨bctx.privateIPAddress, httpPort.number⟩ 100
             5000000000 none,
           .getNodeIdentity ⟨bctx.privateIPAddress, httpPort.number⟩ (.ok identity),
           .addService (serviceId ++ "-validator")
            (getValidatorContainerConfigSupplier env launcher
              ((Split delimitedImagesStr ',').getD 1 "") (serviceId ++ "-validator") logLevel
              (bctx.privateIPAddress ++ ":4000") (bctx.privateIPAddress ++ ":3500")
              nodeKeystoreDirpaths.RawKeysDirpath nodeKeystoreDirpaths.PrysmDirpath
              extraValidatorParams) vanswer] →
        ∃ beaconSupplier beaconServiceCtx restClient identity logLevel,
          pre = [.addService (serviceId ++ "-beacon") beaconSupplier (.ok beaconServiceCtx),
                 .waitForBeaconClientAvailability restClient 100 5000000000 none,
                 .getNodeIdentity restClient (.ok identity)] ∧
          supplier = getValidatorContainerConfigSupplier env launcher
            ((Split delimitedImagesStr ',').getD 1 "") (serviceId ++ "-validator") logLevel
            (beaconServiceCtx.GetPrivateIPAddress ++ ":4000")
            (beaconServiceCtx.GetPrivateIPAddress ++ ":3500")
            nodeKeystoreDirpaths.RawKeysDirpath nodeKeystoreDirpaths.PrysmDirpath
            extraValidatorParams ∧
          ∀ privateIpAddr sharedDir w0 cfg w1,
            supplier privateIpAddr sharedDir w0 = (.ok cfg, w1) →
            "--beacon-rpc-provider=" ++ (beaconServiceCtx.GetPrivateIPAddress ++ ":4000") ∈
              cfg.cmdOverride ∧
            "--beacon-rpc-gateway-provider=" ++
              (beaconServiceCtx.GetPrivateIPAddress ++ ":3500") ∈ cfg.cmdOverride := by
      intro bctx httpPort identity vanswer ht
      rw [ht] at h
      obtain ⟨-, hx⟩ | ⟨-, hx⟩ | ⟨-, hx⟩ | ⟨hpre, hx⟩ := split_four h
      · exact absurd hx (validator_call_ne_beacon_call _ _ _ _ _)
      · cases hx
      · cases hx
      · injection hx with h1 h2 h3
        refine ⟨_, bctx, _, identity, logLevel, hpre, h2, ?_⟩
        intro privateIpAddr sharedDir w0 cfg w1 hcfg
        rw [h2] at hcfg
        exact (validator_supplier_spec env launcher _ _ _ _ _ _ _ _ _ _ _ _ _ hcfg).2
    obtain ⟨e, ht, -⟩ | ⟨bctx, ⟨ht, -⟩ | ⟨httpPort, -, ⟨e, ht, -⟩ | ⟨e, ht, -⟩ |
      ⟨identity, ⟨e, ht, -⟩ | ⟨vctx, ht, -⟩⟩⟩⟩ := hs
    · rw [ht] at h
      obtain ⟨-, hx⟩ := split_one h
      exact absurd hx (validator_call_ne_beacon_call _ _ _ _ _)
    · rw [ht] at h
      obtain ⟨-, hx⟩ := split_one h
      exact absurd hx (validator_call_ne_beacon_call _ _ _ _ _)
    · rw [ht] at h
      obtain ⟨-, hx⟩ | ⟨-, hx⟩ := split_two h
      · exact absurd hx (validator_call_ne_beacon_call _ _ _ _ _)
      · cases hx
    · rw [ht] at h
      obtain ⟨-, hx⟩ | ⟨-, hx⟩ | ⟨-, hx⟩ := split_three h
      · exact absurd hx (validator_call_ne_beacon_call _ _ _ _ _)
      · cases hx
      · cases hx
    · exact key bctx httpPort identity _ ht
    · exact key bctx httpPort identity _ ht

/-- Witness of C13 in the simulated world: the beacon service gets the address `10.0.0.5`, so
the validator supplier is bound to `10.0.0.5:4000` and `10.0.0.5:3500`, and the launch spec the
runtime started for `cl-0-validator` has the two literal arguments. -/
theorem Launch_validator_endpoints_witness :
    (∃ beaconSupplier beaconServiceCtx restClient identity logLevel,
      (Sim.launch "beacon:latest,validator:latest" none [] [] Sim.calm).trace.take 3 =
        [.addService ("cl-0" ++ "-beacon") beaconSupplier (.ok beaconServiceCtx),
         .waitForBeaconClientAvailability restClient 100 5000000000 none,
         .getNodeIdentity restClient (.ok identity)] ∧
      Sim.validatorSupplier [] = getValidatorContainerConfigSupplier Sim.env Sim.launcher
        ((Split "beacon:latest,validator:latest" ',').getD 1 "") ("cl-0" ++ "-validator")
        logLevel
        (beaconServiceCtx.GetPrivateIPAddress ++ ":4000")
        (beaconServiceCtx.GetPrivateIPAddress ++ ":3500")
        Sim.keystores.RawKeysDirpath Sim.keystores.PrysmDirpath [] ∧
      ∀ privateIpAddr sharedDir w0 cfg w1,
        Sim.validatorSupplier [] privateIpAddr sharedDir w0 = (.ok cfg, w1) →
        "--beacon-rpc-provider=" ++ (beaconServiceCtx.GetPrivateIPAddress ++ ":4000") ∈
          cfg.cmdOverride ∧
        "--beacon-rpc-gateway-provider=" ++ (beaconServiceCtx.GetPrivateIPAddress ++ ":3500") ∈
          cfg.cmdOverride) ∧
    ((Sim.launch "beacon:latest,validator:latest" none [] []
        Sim.calm).world.launched.lookup "cl-0-validator").map
      (fun cfg => decide ("--beacon-rpc-provider=10.0.0.5:4000" ∈ cfg.cmdOverride ∧
        "--beacon-rpc-gateway-provider=10.0.0.5:3500" ∈ cfg.cmdOverride)) = some true :=
  ⟨Launch_validator_endpoints Sim.env Sim.launcher "cl-0" "beacon:latest,validator:latest" ""
      .Info none Sim.elCtx Sim.keystores [] [] Sim.calm
      ((Sim.launch "beacon:latest,validator:latest" none [] [] Sim.calm).trace.take 3)
      (Sim.validatorSupplier [])
      (.ok ⟨"cl-0-validator", Sim.validatorDir, "10.0.0.6", validatorNodeUsedPorts⟩) [] rfl,
    by decide⟩

end Prysm

/-! ## The two images of the delimited image string -/

namespace Prysm

/-- Splitting always gives at least one segment. -/
theorem splitChars_ne_nil (sep : Char) (l : List Char) : splitChars sep l ≠ [] := by
  cases l with
  | nil => simp [splitChars]
  | cons c cs =>
    unfold splitChars
    split
    · simp
    · split <;> simp

/-- A list that splits into one segment is that segment and has no separator. -/
theorem splitChars_one (sep : Char) : ∀ (l y : List Char), splitChars sep l = [y] →
    l = y ∧ sep ∉ y := by
  intro l
  induction l with
  | nil =>
    intro y h
    simp only [splitChars, List.cons.injEq, and_true] at h
    subst h
    exact ⟨rfl, List.not_mem_nil _⟩
  | cons c cs ih =>
    intro y h
    unfold splitChars at h
    split at h
    · simp only [List.cons.injEq] at h
      exact absurd h.2 (splitChars_ne_nil sep cs)
    · rename_i hc
      split at h
      · rename_i hnil
        exact absurd hnil (splitChars_ne_nil sep cs)
      · rename_i seg segs hseg
        simp only [List.cons.injEq] at h
        obtain ⟨rfl, rfl⟩ := h
        obtain ⟨hcs, hmem⟩ := ih seg hseg
        refine ⟨by rw [hcs], ?_⟩
        intro hm
        rcases List.mem_cons.mp hm with hm | hm
        · exact hc hm.symm
        · exact hmem hm

/-- A list that splits into two segments is the first segment, the separator and the second
segment, and neither segment has a separator. -/
theorem splitChars_two (sep : Char) : ∀ (l x y : List Char), splitChars sep l = [x, y] →
    l = x ++ sep :: y ∧ sep ∉ x ∧ sep ∉ y := by
  intro l
  induction l with
  | nil =>
    intro x y h
    simp [splitChars] at h
  | cons c cs ih =>
    intro x y h
    unfold splitChars at h
    split at h
    · rename_i hc
      simp only [List.cons.injEq] at h
      obtain ⟨rfl, h⟩ := h
      obtain ⟨hcs, hmem⟩ := splitChars_one sep cs y h
      refine ⟨by rw [hcs, hc]; rfl, List.not_mem_nil _, hmem⟩
    · rename_i hc
      split at h
      · simp at h
      · rename_i seg segs hseg
        simp only [List.cons.injEq] at h
        obtain ⟨rfl, rfl⟩ := h
        obtain ⟨hcs, hx, hy⟩ := ih seg y hseg
        refine ⟨by rw [hcs]; rfl, ?_, hy⟩
        intro hm
        rcases List.mem_cons.mp hm with hm | hm
        · exact hc hm.symm
        · exact hx hm

/-- A string that `Split` cuts at `,` into two segments is the first segment, one `,` and the
second segment, and neither segment has a `,`. -/
theorem Split_two (s a b : String) (h : Split s ',' = [a, b]) :
    s = a ++ "," ++ b ∧ ',' ∉ a.data ∧ ',' ∉ b.data := by
  unfold Split at h
  match hsp : splitChars ',' s.data, h with
  | [x, y], h =>
    simp only [List.map_cons, List.map_nil, List.cons.injEq, and_true] at h
    obtain ⟨rfl, rfl⟩ := h
    obtain ⟨hl, hx, hy⟩ := splitChars_two ',' s.data x y hsp
    refine ⟨?_, hx, hy⟩
    apply String.ext
    rw [String.data_append, String.data_append, hl]
    simp
  | [], h => simp at h
  | [_], h => simp at h
  | _ :: _ :: _ :: _, h => simp at h

/-- C14: when the delimited image string splits at `,` into two segments, as every string
that passes the image check does, the string is the first segment, the single `,` and the
second segment; and every `AddService` call of the run is either the one for `S-beacon`, whose
supplier only makes launch specs with the first segment, untrimmed, as image, or the one for
`S-validator`, whose supplier only makes launch specs with the second segment, untrimmed, as
image. -/
theorem Launch_images_untrimmed {σ : Type} (env : Collaborators σ)
    (launcher : PrysmCLClientLauncher)
    (serviceId delimitedImagesStr participantLogLevel : String)
    (globalLogLevel : GlobalClientLogLevel) (bootnodeContext : Option CLClientContext)
    (elClientContext : ELClientContext) (nodeKeystoreDirpaths : NodeTypeKeystoreDirpaths)
    (extraBeaconParams extraValidatorParams : List String) (w : σ)
    (beaconImage validatorImage : String)
    (hs : Split delimitedImagesStr ',' = [beaconImage, validatorImage]) :
    delimitedImagesStr = beaconImage ++ "," ++ validatorImage ∧
    ',' ∉ beaconImage.data ∧ ',' ∉ validatorImage.data ∧
    ∀ id supplier answer,
      LaunchCall.addService id supplier answer ∈
        (Launch env launcher serviceId delimitedImagesStr participantLogLevel globalLogLevel
          bootnodeContext elClientContext nodeKeystoreDirpaths extraBeaconParams
          extraValidatorParams w).trace →
      (id = serviceId ++ "-beacon" ∧
        ∀ privateIpAddr sharedDir w0 cfg w1,
          supplier privateIpAddr sharedDir w0 = (.ok cfg, w1) → cfg.image = beaconImage) ∨
      (id = serviceId ++ "-validator" ∧
        ∀ privateIpAddr sharedDir w0 cfg w1,
          supplier privateIpAddr sharedDir w0 = (.ok cfg, w1) →
            cfg.image = validatorImage) := by
  obtain ⟨h1, h2, h3⟩ := Split_two delimitedImagesStr beaconImage validatorImage hs
  refine ⟨h1, h2, h3, ?_⟩
  have hg0 : (Split delimitedImagesStr ',').getD 0 "" = beaconImage := by rw [hs]; rfl
  have hg1 : (Split delimitedImagesStr ',').getD 1 "" = validatorImage := by rw [hs]; rfl
  intro id supplier answer hm
  have hbeacon : ∀ (logLevel : String) (banswer : Except StackErr ServiceContext),
      LaunchCall.addService id supplier answer =
        LaunchCall.addService (serviceId ++ "-beacon")
          (getBeaconContainerConfigSupplier env beaconImage bootnodeContext elClientContext
            logLevel launcher.genesisConfigYmlFilepathOnModuleContainer
            launcher.genesisSszFilepathOnModuleContainer extraBeaconParams) banswer →
      id = serviceId ++ "-beacon" ∧
        ∀ privateIpAddr sharedDir w0 cfg w1,
          supplier privateIpAddr sharedDir w0 = (.ok cfg, w1) → cfg.image = beaconImage := by
    intro logLevel banswer hx
    injection hx with e1 e2 e3
    refine ⟨e1, ?_⟩
    intro privateIpAddr sharedDir w0 cfg w1 hcfg
    rw [e2] at hcfg
    exact beacon_supplier_image env _ _ _ _ _ _ _ _ _ _ _ _ hcfg
  have hvalidator : ∀ (logLevel rpc http : String) (vanswer : Except StackErr ServiceContext),
      LaunchCall.addService id supplier answer =
        LaunchCall.addService (serviceId ++ "-validator")
          (getValidatorContainerConfigSupplier env launcher validatorImage
            (serviceId ++ "-validator") logLevel rpc http nodeKeystoreDirpaths.RawKeysDirpath
            nodeKeystoreDirpaths.PrysmDirpath extraValidatorParams) vanswer →
      id = serviceId ++ "-validator" ∧
        ∀ privateIpAddr sharedDir w0 cfg w1,
          supplier privateIpAddr sharedDir w0 = (.ok cfg, w1) →
            cfg.image = validatorImage := by
    intro logLevel rpc http vanswer hx
    injection hx with e1 e2 e3
    refine ⟨e1, ?_⟩
    intro privateIpAddr sharedDir w0 cfg w1 hcfg
    rw [e2] at hcfg
    exact (validator_supplier_spec env launcher _ _ _ _ _ _ _ _ _ _ _ _ _ hcfg).1
  obtain hsh | ⟨logLevel, -, -, -, -, hsh⟩ := Launch_shape env launcher serviceId
    delimitedImagesStr participantLogLevel globalLogLevel bootnodeContext elClientContext
    nodeKeystoreDirpaths extraBeaconParams extraValidatorParams w _ rfl
  · obtain ⟨ht, -, -⟩ := hsh
    rw [ht] at hm
    exact absurd hm (List.not_mem_nil _)
  · simp only [beaconLaunchCall, healthWaitCall, identityCall, validatorLaunchCall, hg0, hg1]
      at hsh
    obtain ⟨e, ht, -⟩ | ⟨bctx, ⟨ht, -⟩ | ⟨httpPort, -, ⟨e, ht, -⟩ | ⟨e, ht, -⟩ |
      ⟨identity, ⟨e, ht, -⟩ | ⟨vctx, ht, -⟩⟩⟩⟩ := hsh
    all_goals
      rw [ht] at hm
      simp only [List.mem_cons, List.mem_singleton, List.not_mem_nil, or_false] at hm
    · exact Or.inl (hbeacon _ _ hm)
    · exact Or.inl (hbeacon _ _ hm)
    · rcases hm with hm | hm
      · exact Or.inl (hbeacon _ _ hm)
      · cases hm
    · rcases hm with hm | hm | hm
      · exact Or.inl (hbeacon _ _ hm)
      · cases hm
      · cases hm
    · rcases hm with hm | hm | hm | hm
      · exact Or.inl (hbeacon _ _ hm)
      · cases hm
      · cases hm
      · exact Or.inr (hvalidator _ _ _ _ hm)
    · rcases hm with hm | hm | hm | hm
      · exact Or.inl (hbeacon _ _ hm)
      · cases hm
      · cases hm
      · exact Or.inr (hvalidator _ _ _ _ hm)

/-- Witness of C14 in the simulated world: the image string `a , b` passes the check and the
runtime starts `cl-0-beacon` with image `a ` and `cl-0-validator` with image ` b`. -/
theorem Launch_images_untrimmed_witness :
    (Split "a , b" ',' = ["a ", " b"] ∧ TrimSpace "a " ≠ "" ∧ TrimSpace " b" ≠ "") ∧
    ("a , b" = "a " ++ "," ++ " b" ∧
      ',' ∉ "a ".data ∧ ',' ∉ " b".data ∧
      ∀ id supplier answer,
        LaunchCall.addService id supplier answer ∈
          (Sim.launch "a , b" none [] [] Sim.calm).trace →
        (id = "cl-0" ++ "-beacon" ∧
          ∀ privateIpAddr sharedDir w0 cfg w1,
            supplier privateIpAddr sharedDir w0 = (.ok cfg, w1) → cfg.image = "a ") ∨
        (id = "cl-0" ++ "-validator" ∧
          ∀ privateIpAddr sharedDir w0 cfg w1,
            supplier privateIpAddr sharedDir w0 = (.ok cfg, w1) → cfg.image = " b")) ∧
    (Sim.launch "a , b" none [] [] Sim.calm).world.launched.map (fun p => (p.1, p.2.image)) =
      [("cl-0-beacon", "a "), ("cl-0-validator", " b")] :=
  ⟨⟨by decide, by decide, by decide⟩,
    Launch_images_untrimmed Sim.env Sim.launcher "cl-0" "a , b" "" .Info none Sim.elCtx
      Sim.keystores [] [] Sim.calm "a " " b" (by decide),
    by decide⟩

end Prysm
